import Mathlib

/-!
# balde: the application object, the request lifecycle and the template generator

A shallow embedding of the application object of `src/app.c` (route table,
before-request hooks, config store, user data, error slot, per-request copy),
of reverse URL construction, of the request lifecycle `balde_app_main_loop`,
and of the template generator of `src/template/template.c`
(`balde_template_generate_source`, `balde_template_get_name`).

Conventions of the embedding.

* C state is passed explicitly: a function that writes through `balde_app_t *`
  returns the application it leaves behind.
* Function pointers (view functions, before-request hooks) are values that
  name a function; what the named function does is given by `Collaborators`.
* Functions of the repository that `app.c` calls but that live in other
  translation units (`routing.c`, `exceptions.c`, `requests.c`,
  `responses.c`) are fields of `Collaborators`: every theorem holds for
  every implementation of them, under the stated contracts only.
* Every call through a function pointer, and the call of the dispatcher, is
  recorded in a list of `balde_call_t`, in program order.
* The loop over the before-request hooks walks the list as the hooks leave
  it, and a hook may append to it: the loop need not end. The functions that
  run it take `fuel`, a bound on the number of hook calls, and give `none`
  where the loop has not ended within the bound.
* What a function does to the static locks and to the tables they are there
  for is a list of `balde_step_t`, in program order.
* GLib functions are given by what GLib documents for them; `g_utf8_strdown`
  and the environment read by `g_getenv` are arguments of the functions that
  use them.
-/

namespace Balde

/-! ## Data model -/

/-- Modelled from the spec: the method bits of `balde_http_method_t`
(`balde.h`, absent from the sources at hand): one distinct bit for each method
of section 6. -/
def BALDE_HTTP_NONE : Nat := 0

/-- Modelled from the spec: method bit of `OPTIONS` (`balde.h`). -/
def BALDE_HTTP_OPTIONS : Nat := 1

/-- Modelled from the spec: method bit of `GET` (`balde.h`). -/
def BALDE_HTTP_GET : Nat := 2

/-- Modelled from the spec: method bit of `HEAD` (`balde.h`). -/
def BALDE_HTTP_HEAD : Nat := 4

/-- Modelled from the spec: method bit of `POST` (`balde.h`). -/
def BALDE_HTTP_POST : Nat := 8

/-- Modelled from the spec: method bit of `PUT` (`balde.h`). -/
def BALDE_HTTP_PUT : Nat := 16

/-- Modelled from the spec: method bit of `PATCH` (`balde.h`). -/
def BALDE_HTTP_PATCH : Nat := 32

/-- Modelled from the spec: method bit of `DELETE` (`balde.h`). -/
def BALDE_HTTP_DELETE : Nat := 64

/-- GLib's `GError`: error domain, error code and message. -/
structure GError where
  domain : Nat
  code : Int
  message : String
deriving DecidableEq, Repr

/-- Modelled from the spec: the compiled matcher `balde_url_rule_match_t`
(`routing.h`, absent): the literal pieces of a pattern, between which the
capture slots sit, and the names of the capture slots in pattern order. -/
structure balde_url_rule_match_t where
  pieces : List String
  args : List String
deriving DecidableEq, Repr

/-- The `balde_url_rule_t` filled by `balde_app_add_url_rule`: endpoint name,
rule string, compiled matcher and allowed-method mask. -/
structure balde_url_rule_t where
  endpoint : String
  rule : String
  match_ : balde_url_rule_match_t
  method : Nat
deriving DecidableEq, Repr

/-- A `balde_view_func_t` function pointer: either the built-in handler
`balde_resource_view` of the static route, or a function of the embedding
program, named by its address. -/
inductive balde_view_func_t where
  | balde_resource_view
  | user (address : Nat)
deriving DecidableEq, Repr

/-- A `balde_before_request_func_t` function pointer, named by its address. -/
abbrev balde_before_request_func_t := Nat

/-- The `balde_view_t` stored in the route table: a rule and its handler. -/
structure balde_view_t where
  url_rule : balde_url_rule_t
  view_func : balde_view_func_t
deriving DecidableEq, Repr

/-- The `struct _balde_app_private_t` that `balde_app_init` fills: the part of
an application that a per-request copy shares with the application it was
copied from. A pointer is `none` when `NULL`; the hash table `config` is the
list of its keys with their values (a value may be `NULL`). -/
structure balde_app_private_t where
  views : List balde_view_t
  before_requests : List balde_before_request_func_t
  static_resources : List String
  user_data : Option Nat
  user_data_destroy_func : Option Nat
  config : List (String × Option String)
deriving DecidableEq, Repr

/-- The `balde_app_t` of `app.c`: shared private part, copy flag, error slot. -/
structure balde_app_t where
  priv : balde_app_private_t
  copy : Bool
  error : Option GError
deriving DecidableEq, Repr

/-- Modelled from the spec: the environment record handed over by a transport
adapter (`balde_request_env_t`, absent), section 6. -/
structure balde_request_env_t where
  request_method : String
  path_info : String
  query_string : String
  headers : List (String × String)
  script_name : Option String
deriving DecidableEq, Repr

/-- Modelled from the spec: the request object (`balde_request_t`, absent),
section 3: method bit, path, script root, headers, and the captured path
arguments that the dispatcher fills in. -/
structure balde_request_t where
  method : Nat
  path : String
  script_name : Option String
  headers : List (String × String)
  view_args : List (String × String)
deriving DecidableEq, Repr

/-- Modelled from the spec: the response object (`balde_response_t`, absent),
section 3: status code, header mapping and body buffer. -/
structure balde_response_t where
  status_code : Nat
  headers : List (String × String)
  body : String
deriving DecidableEq, Repr

/-- Modelled from the spec: how a registration call on a per-request copy
ends (section 7, `ReadOnlyViolation`). -/
inductive balde_failure_t where
  | ReadOnlyViolation
deriving DecidableEq, Repr

/-- The functions of the repository that `app.c` calls and that are defined
in other translation units, and the meaning of the function pointers an
embedding program registers.

* `balde_parse_url_rule` (`routing.c`): the compiled matcher, or the `GError`
  it leaves in `tmp_error`.
* `balde_make_request` (`requests.c`).
* `balde_dispatch_from_path` (`routing.c`): the endpoint name it returns
  (`none` for `NULL`) and the captured arguments it writes.
* `balde_list_allowed_methods` (`routing.c`).
* `balde_make_response`, `balde_response_set_header` (`responses.c`).
* `balde_abort_set_error`, `balde_abort_set_error_with_description`,
  `balde_make_response_from_exception` (`exceptions.c`).
* `before_request`: what the hook at an address does to the application and
  the request it is given.
* `view`: the response the view function returns and what it does to the
  application (the per-request copy, shared private part included) it is
  given. -/
structure Collaborators where
  balde_parse_url_rule : String → Except GError balde_url_rule_match_t
  balde_make_request : balde_app_t → balde_request_env_t → balde_request_t
  balde_dispatch_from_path :
    List balde_view_t → String → Option String × List (String × String)
  balde_list_allowed_methods : Nat → String
  balde_make_response : String → balde_response_t
  balde_response_set_header : balde_response_t → String → String → balde_response_t
  balde_abort_set_error : balde_app_t → Nat → balde_app_t
  balde_abort_set_error_with_description : balde_app_t → Nat → String → balde_app_t
  balde_make_response_from_exception : GError → balde_response_t
  before_request :
    balde_before_request_func_t → balde_app_t → balde_request_t → balde_app_t × balde_request_t
  view : balde_view_func_t → balde_app_t → balde_request_t → balde_response_t × balde_app_t

/-! ## Registration (`app.c`, lines 94-276) -/

/-- GLib's `g_propagate_error (dest, src)` on a non-`NULL` `dest`: `src` is
moved into an empty slot; a slot that already holds an error keeps it (GLib
warns and frees `src`). -/
def g_propagate_error (dest : Option GError) (src : GError) : Option GError :=
  match dest with
  | none => some src
  | some error => some error

/-- GLib's `g_slist_append`: the element goes to the end of the list. -/
def g_slist_append {α : Type} (list : List α) (data : α) : List α :=
  list ++ [data]

/-- Modelled from the spec: the macro `BALDE_APP_READ_ONLY` of
`balde-private.h` (absent): a mutating call on a per-request copy is rejected
with a `ReadOnlyViolation`; on an application that is not a copy the function
goes on. -/
def BALDE_APP_READ_ONLY (app : balde_app_t) : Except balde_failure_t Unit :=
  if app.copy then Except.error balde_failure_t.ReadOnlyViolation else Except.ok ()

/-- The mask `balde_app_add_url_rule` stores for a requested mask
(`app.c`, lines 245-247). -/
def balde_url_rule_method (method : Nat) : Nat :=
  let method := method ||| BALDE_HTTP_OPTIONS
  if method &&& BALDE_HTTP_GET ≠ 0 then method ||| BALDE_HTTP_HEAD else method

/-- The function `balde_app_add_url_rule` (`app.c`, lines 229-252). -/
def balde_app_add_url_rule (d : Collaborators) (app : balde_app_t) (endpoint rule : String)
    (method : Nat) (view_func : balde_view_func_t) : Except balde_failure_t balde_app_t :=
  match BALDE_APP_READ_ONLY app with
  | Except.error failure => Except.error failure
  | Except.ok _ =>
    match d.balde_parse_url_rule rule with
    | Except.error tmp_error =>
      Except.ok { app with error := g_propagate_error app.error tmp_error }
    | Except.ok compiled =>
      let view : balde_view_t :=
        { url_rule :=
            { endpoint := endpoint, rule := rule, match_ := compiled,
              method := balde_url_rule_method method },
          view_func := view_func }
      Except.ok { app with priv := { app.priv with views := g_slist_append app.priv.views view } }

/-- The function `balde_app_init` (`app.c`, lines 94-110). -/
def balde_app_init (d : Collaborators) : Except balde_failure_t balde_app_t :=
  balde_app_add_url_rule d
    { priv :=
        { views := [], before_requests := [], static_resources := [], user_data := none,
          user_data_destroy_func := none, config := [] },
      copy := false,
      error := none }
    "static" "/static/<path:file>" BALDE_HTTP_GET balde_view_func_t.balde_resource_view

/-- The function `balde_app_copy` (`app.c`, lines 113-121). -/
def balde_app_copy (app : balde_app_t) : balde_app_t :=
  { error := none, copy := true, priv := app.priv }

/-- The function `balde_app_get_view_from_endpoint` (`app.c`, lines 267-276):
the first entry whose endpoint name is the one asked for. -/
def balde_app_get_view_from_endpoint (app : balde_app_t) (endpoint : String) :
    Option balde_view_t :=
  app.priv.views.find? (fun view => view.url_rule.endpoint == endpoint)

/-- The arguments of one call of `balde_app_add_url_rule`. -/
structure balde_url_rule_call_t where
  endpoint : String
  rule : String
  method : Nat
  view_func : balde_view_func_t
deriving DecidableEq, Repr

/-- A sequence of `balde_app_add_url_rule` calls made one after another on an
application. -/
def balde_app_add_url_rules (d : Collaborators) :
    balde_app_t → List balde_url_rule_call_t → Except balde_failure_t balde_app_t
  | app, [] => Except.ok app
  | app, call :: calls =>
    match balde_app_add_url_rule d app call.endpoint call.rule call.method call.view_func with
    | Except.error failure => Except.error failure
    | Except.ok app1 => balde_app_add_url_rules d app1 calls

/-- An application built by `balde_app_init` followed by a sequence of
`balde_app_add_url_rule` calls. -/
def balde_app_register (d : Collaborators) (calls : List balde_url_rule_call_t) :
    Except balde_failure_t balde_app_t :=
  match balde_app_init d with
  | Except.error failure => Except.error failure
  | Except.ok app => balde_app_add_url_rules d app calls

/-- The call that `balde_app_init` makes for the built-in static route. -/
def balde_static_call : balde_url_rule_call_t :=
  { endpoint := "static", rule := "/static/<path:file>", method := BALDE_HTTP_GET,
    view_func := balde_view_func_t.balde_resource_view }

/-- The entry `balde_app_add_url_rule` stores for a call whose pattern
compiles; `none` when the pattern does not compile. -/
def balde_view_of_call (d : Collaborators) (call : balde_url_rule_call_t) : Option balde_view_t :=
  match d.balde_parse_url_rule call.rule with
  | Except.error _ => none
  | Except.ok compiled =>
    some
      { url_rule :=
          { endpoint := call.endpoint, rule := call.rule, match_ := compiled,
            method := balde_url_rule_method call.method },
        view_func := call.view_func }

/-- A route table that registration can build: the table of an application
built by `balde_app_init` followed by `balde_app_add_url_rule` calls. -/
def balde_views_registered (d : Collaborators) (views : List balde_view_t) : Prop :=
  ∃ calls app, balde_app_register d calls = Except.ok app ∧ app.priv.views = views

/-! ## Configuration, user data, hooks and reverse URLs (`app.c`, lines 124-309) -/

/-- GLib's `g_hash_table_replace` on a table with string keys: the key gets
the value, in the place of the entry the key had, if it had one. -/
def g_hash_table_replace (table : List (String × Option String)) (key : String)
    (value : Option String) : List (String × Option String) :=
  (key, value) :: table.filter (fun entry => entry.1 != key)

/-- GLib's `g_hash_table_lookup`: the value of the key, `NULL` when the key
is not in the table. -/
def g_hash_table_lookup (table : List (String × Option String)) (key : String) :
    Option String :=
  match table.find? (fun entry => entry.1 == key) with
  | some entry => entry.2
  | none => none

/-- The function `balde_app_set_config` (`app.c`, lines 126-133).
`g_utf8_strdown` is GLib's lower-casing of a UTF-8 string, whatever it is;
`value` is `none` for `NULL` (`g_strdup` of `NULL` is `NULL`). -/
def balde_app_set_config (g_utf8_strdown : String → String) (app : balde_app_t) (name : String)
    (value : Option String) : Except balde_failure_t balde_app_t :=
  match BALDE_APP_READ_ONLY app with
  | Except.error failure => Except.error failure
  | Except.ok _ =>
    Except.ok
      { app with
        priv :=
          { app.priv with
            config := g_hash_table_replace app.priv.config (g_utf8_strdown name) value } }

/-- The function `balde_app_set_config_from_envvar` (`app.c`, lines 136-150).
`g_getenv` is the environment of the process. -/
def balde_app_set_config_from_envvar (d : Collaborators) (g_utf8_strdown : String → String)
    (g_getenv : String → Option String) (app : balde_app_t) (name env_name : String)
    (silent : Bool) : Except balde_failure_t balde_app_t :=
  match BALDE_APP_READ_ONLY app with
  | Except.error failure => Except.error failure
  | Except.ok _ =>
    let value := g_getenv env_name
    if value = none ∧ silent = false then
      let msg := env_name ++ " environment variable must be set"
      Except.ok (d.balde_abort_set_error_with_description app 500 msg)
    else
      balde_app_set_config g_utf8_strdown app name value

/-- The function `balde_app_get_config` (`app.c`, lines 153-160); `none` is
`NULL`. -/
def balde_app_get_config (g_utf8_strdown : String → String) (app : balde_app_t)
    (name : String) : Option String :=
  let tmp := g_utf8_strdown name
  g_hash_table_lookup app.priv.config tmp

/-- A sequence of `balde_app_set_config` calls made one after another. -/
def balde_app_set_configs (g_utf8_strdown : String → String) :
    balde_app_t → List (String × Option String) → Except balde_failure_t balde_app_t
  | app, [] => Except.ok app
  | app, setting :: settings =>
    match balde_app_set_config g_utf8_strdown app setting.1 setting.2 with
    | Except.error failure => Except.error failure
    | Except.ok app1 => balde_app_set_configs g_utf8_strdown app1 settings

/-- What `balde_app_set_user_data` and `balde_app_free_user_data` do with the
user data, in program order: a call of the destructor on a value, or the
store of a value in the user data slot. -/
inductive balde_user_data_step_t where
  | destroy (destroy_func : Nat) (user_data : Nat)
  | store (user_data : Option Nat)
deriving DecidableEq, Repr

/-- The function `balde_app_free_user_data` (`app.c`, lines 190-197): the
application afterwards and the destructor calls made. -/
def balde_app_free_user_data (app : balde_app_t) :
    balde_app_t × List balde_user_data_step_t :=
  match app.priv.user_data_destroy_func, app.priv.user_data with
  | some destroy_func, some user_data =>
    ({ app with priv := { app.priv with user_data := none } },
      [balde_user_data_step_t.destroy destroy_func user_data,
        balde_user_data_step_t.store none])
  | _, _ => (app, [])

/-- The function `balde_app_set_user_data` (`app.c`, lines 163-172): the
application afterwards and what was done with the user data, in order. -/
def balde_app_set_user_data (app : balde_app_t) (user_data : Option Nat) :
    Except balde_failure_t (balde_app_t × List balde_user_data_step_t) :=
  match BALDE_APP_READ_ONLY app with
  | Except.error failure => Except.error failure
  | Except.ok _ =>
    let freed := balde_app_free_user_data app
    Except.ok
      ({ freed.1 with priv := { freed.1.priv with user_data := user_data } },
        freed.2 ++ [balde_user_data_step_t.store user_data])

/-- The function `balde_app_get_user_data` (`app.c`, lines 175-179). -/
def balde_app_get_user_data (app : balde_app_t) : Option Nat :=
  app.priv.user_data

/-- The function `balde_app_set_user_data_destroy_func` (`app.c`, lines
182-187). -/
def balde_app_set_user_data_destroy_func (app : balde_app_t) (destroy_func : Option Nat) :
    Except balde_failure_t balde_app_t :=
  match BALDE_APP_READ_ONLY app with
  | Except.error failure => Except.error failure
  | Except.ok _ =>
    Except.ok { app with priv := { app.priv with user_data_destroy_func := destroy_func } }

/-- The function `balde_app_add_before_request` (`app.c`, lines 257-264). -/
def balde_app_add_before_request (app : balde_app_t)
    (hook_func : balde_before_request_func_t) : Except balde_failure_t balde_app_t :=
  match BALDE_APP_READ_ONLY app with
  | Except.error failure => Except.error failure
  | Except.ok _ =>
    Except.ok
      { app with
        priv :=
          { app.priv with
            before_requests := g_slist_append app.priv.before_requests hook_func } }

/-- The application a registration call leaves behind: the one it returns,
or, when the call was rejected, the one it was given: a rejected call ends
before its first write. -/
def balde_app_after (app : balde_app_t) (result : Except balde_failure_t balde_app_t) :
    balde_app_t :=
  match result with
  | Except.ok app1 => app1
  | Except.error _ => app

/-- GLib's unreserved characters of a URI: ASCII letters and digits, `-`,
`.`, `_` and `~`. -/
def g_uri_unreserved (c : Char) : Bool :=
  c.isAlphanum || c == '-' || c == '.' || c == '_' || c == '~'

/-- The escape `%XX` of one byte, with GLib's upper-case hexadecimal digits. -/
def g_uri_escape_byte (byte : Nat) : String :=
  String.mk
    ['%', "0123456789ABCDEF".data.getD (byte / 16) '0',
      "0123456789ABCDEF".data.getD (byte % 16) '0']

/-- What GLib's `g_uri_escape_string` writes for one character: a character
outside ASCII is kept when `allow_utf8` is set; an unreserved character and a
character of `reserved_chars_allowed` are kept; every other character has
each of its UTF-8 bytes escaped. -/
def g_uri_escape_char (reserved_chars_allowed : String) (allow_utf8 : Bool) (c : Char) :
    String :=
  if 128 ≤ c.toNat ∧ allow_utf8 = true then String.singleton c
  else if g_uri_unreserved c || reserved_chars_allowed.data.contains c then String.singleton c
  else String.join ((String.utf8EncodeChar c).map (fun byte => g_uri_escape_byte byte.toNat))

/-- GLib's `g_uri_escape_string`: the escapes of the characters, in order. -/
def g_uri_escape_string (unescaped reserved_chars_allowed : String) (allow_utf8 : Bool) :
    String :=
  String.mk
    (unescaped.data.flatMap
      (fun c => (g_uri_escape_char reserved_chars_allowed allow_utf8 c).data))

/-- The loop of `balde_app_url_forv` (`app.c`, lines 300-304) over the
`NULL`-terminated array `pieces`: what is appended to the script name. Every
piece but the last is followed by the next variadic argument. `none` where
`va_arg` reads past the arguments that were passed. -/
def balde_app_url_forv_pieces : List String → List String → Option String
  | [], _ => some ""
  | [piece], _ => some piece
  | _ :: _ :: _, [] => none
  | piece :: next :: pieces, param :: params =>
    match balde_app_url_forv_pieces (next :: pieces) params with
    | none => none
    | some tail => some (piece ++ param ++ tail)

/-- The function `balde_app_url_forv` (`app.c`, lines 291-309). The result is
`none` where the C code has no defined behaviour (too few arguments),
`some none` where it returns `NULL` (no entry has the endpoint). -/
def balde_app_url_forv (app : balde_app_t) (request : balde_request_t) (endpoint : String)
    (params : List String) : Option (Option String) :=
  match balde_app_get_view_from_endpoint app endpoint with
  | none => some none
  | some view =>
    let script_name := request.script_name
    match balde_app_url_forv_pieces view.url_rule.match_.pieces params with
    | none => none
    | some appended =>
      let tmp := (match script_name with
        | none => ""
        | some script_name => script_name) ++ appended
      some (some (g_uri_escape_string tmp "/:" true))

/-- The function `balde_app_url_for` (`app.c`, lines 279-288); `params` are
the variadic arguments. -/
def balde_app_url_for (app : balde_app_t) (request : balde_request_t) (endpoint : String)
    (_external : Bool) (params : List String) : Option (Option String) :=
  balde_app_url_forv app request endpoint params

/-- The escape the spec names `esc`: percent-escaping that leaves `/` and `:`
unescaped. -/
def esc (value : String) : String :=
  g_uri_escape_string value "/:" true

/-- The path of the reverse URL as the spec words it: `p0 ++ esc(a0) ++ p1 ++
... ++ esc(a(n-1)) ++ pn`, one argument for each capture slot. -/
def url_for_spec_path : List String → List String → String
  | [], _ => ""
  | [piece], _ => piece
  | piece :: next :: pieces, [] => piece ++ url_for_spec_path (next :: pieces) []
  | piece :: next :: pieces, arg :: args =>
    piece ++ esc arg ++ url_for_spec_path (next :: pieces) args

/-- The reverse URL as the spec words it: the literal pieces, unchanged,
interleaved with the escaped argument values, one argument for each capture
slot, after the script root, unchanged. -/
def url_for_spec (script_root : String) (pieces args : List String) : String :=
  script_root ++ url_for_spec_path pieces args

/-! ## Locks (`app.c`, lines 124, 227, 255) -/

/-- The static locks of `app.c` (`G_LOCK_DEFINE_STATIC`): `config` (line 124)
for the config store, `views` (line 227) for the route table,
`before_requests` (line 255) for the list of hooks. Each names the table of
the private part it is there for. -/
inductive balde_lock_t where
  | config
  | views
  | before_requests
deriving DecidableEq, Repr

/-- One step of a library function on a lock or on a table of the private
part: `G_LOCK(name)`, `G_UNLOCK(name)`, a read of a table, a write of a
table. -/
inductive balde_step_t where
  | lock (name : balde_lock_t)
  | unlock (name : balde_lock_t)
  | read (table : balde_lock_t)
  | write (table : balde_lock_t)
deriving DecidableEq, Repr

/-- The steps of `balde_app_set_config` (`app.c`, lines 126-133): on a copy
the call is rejected before any step; otherwise `G_LOCK(config)`,
`g_hash_table_replace` on the config store, `G_UNLOCK(config)`. -/
def balde_app_set_config_steps (app : balde_app_t) : List balde_step_t :=
  match BALDE_APP_READ_ONLY app with
  | Except.error _ => []
  | Except.ok _ =>
    [balde_step_t.lock balde_lock_t.config, balde_step_t.write balde_lock_t.config,
      balde_step_t.unlock balde_lock_t.config]

/-- The steps of `balde_app_get_config` (`app.c`, lines 153-160):
`g_hash_table_lookup` on the config store, and nothing else: the function has
no `G_LOCK` and no `G_UNLOCK`. -/
def balde_app_get_config_steps (_app : balde_app_t) : List balde_step_t :=
  [balde_step_t.read balde_lock_t.config]

/-- The steps of `balde_app_add_url_rule` (`app.c`, lines 229-252): on a copy
the call is rejected before any step, and a pattern that does not compile
ends the call before the table is reached (line 242); otherwise
`G_LOCK(views)`, `g_slist_append` on the route table, `G_UNLOCK(views)`. -/
def balde_app_add_url_rule_steps (d : Collaborators) (app : balde_app_t) (rule : String) :
    List balde_step_t :=
  match BALDE_APP_READ_ONLY app with
  | Except.error _ => []
  | Except.ok _ =>
    match d.balde_parse_url_rule rule with
    | Except.error _ => []
    | Except.ok _ =>
      [balde_step_t.lock balde_lock_t.views, balde_step_t.write balde_lock_t.views,
        balde_step_t.unlock balde_lock_t.views]

/-- Whether every read and every write of a sequence of steps is made while
the lock of its table is held, given the locks held at the start. -/
def balde_steps_locked : List balde_step_t → List balde_lock_t → Bool
  | [], _ => true
  | balde_step_t.lock name :: steps, held => balde_steps_locked steps (name :: held)
  | balde_step_t.unlock name :: steps, held => balde_steps_locked steps (held.erase name)
  | balde_step_t.read table :: steps, held =>
    held.contains table && balde_steps_locked steps held
  | balde_step_t.write table :: steps, held =>
    held.contains table && balde_steps_locked steps held

/-! ## Request lifecycle (`app.c`, lines 521-601) -/

/-- One call that `balde_app_main_loop` makes through a function pointer or
to the dispatcher, with its arguments. -/
inductive balde_call_t where
  | before_request (hook_func : balde_before_request_func_t) (app : balde_app_t)
      (request : balde_request_t)
  | dispatch (views : List balde_view_t) (path : String)
  | view (view_func : balde_view_func_t) (app_copy : balde_app_t) (request : balde_request_t)
  | render (response : balde_response_t) (with_body : Bool)
deriving DecidableEq, Repr

/-- What one call of `balde_app_main_loop` leaves behind: the rendered bytes
it returns, the status code it writes to `*status_code`, the shared
application afterwards, the per-request copy as it stood when it was released
(`none` when no copy was made), and the calls made, in order. -/
structure balde_main_loop_t where
  rv : String
  status_code : Nat
  app : balde_app_t
  app_copy : Option balde_app_t
  calls : List balde_call_t
deriving DecidableEq, Repr

/-- The loop over `app->priv->before_requests` of `balde_app_main_loop`
(`app.c`, lines 544-547), from the node at place `index` on. The loop walks
the list itself, not a snapshot of it: a hook is handed the shared
application and may append to the list (`balde_app_add_before_request`, the
copy flag is clear), and `g_slist_next` then finds the appended node. The only
change the library makes to the list is an append, which keeps every node at
its place, so the node after the one at place `index` is the node at place
`index + 1` of the list as the hook left it. Every hook is called with the
shared application and the request as the hooks before it left them. A hook
that appends a hook on every call keeps the C loop running for ever: `fuel`
bounds the number of hook calls, and the result is `none` when the list has
not come to its end after `fuel` calls. -/
def balde_app_run_before_requests (d : Collaborators) :
    Nat → Nat → balde_app_t → balde_request_t →
      Option (balde_app_t × balde_request_t × List balde_call_t)
  | 0, index, app, request =>
    match app.priv.before_requests[index]? with
    | none => some (app, request, [])
    | some _ => none
  | fuel + 1, index, app, request =>
    match app.priv.before_requests[index]? with
    | none => some (app, request, [])
    | some hook_func =>
      let hooked := d.before_request hook_func app request
      match balde_app_run_before_requests d fuel (index + 1) hooked.1 hooked.2 with
      | none => none
      | some rest =>
        some (rest.1, rest.2.1, balde_call_t.before_request hook_func app request :: rest.2.2)

/-- The dispatch part of `balde_app_main_loop` (`app.c`, lines 556-580), on
the per-request copy and the request: the response (`none` while the variable
`response` is not assigned), the copy afterwards, and the view call made.
The result is `none` where the C code dereferences `NULL`: the dispatcher
returned an endpoint name that no entry has. -/
def balde_app_main_loop_view (d : Collaborators) (app_copy : balde_app_t)
    (request : balde_request_t) (endpoint : Option String) :
    Option (Option balde_response_t × balde_app_t × List balde_call_t) :=
  match endpoint with
  | none => some (none, d.balde_abort_set_error app_copy 404, [])
  | some endpoint =>
    match balde_app_get_view_from_endpoint app_copy endpoint with
    | none => none
    | some view =>
      if request.method &&& view.url_rule.method ≠ 0 then
        if request.method = BALDE_HTTP_OPTIONS then
          let response := d.balde_make_response ""
          let allow := d.balde_list_allowed_methods view.url_rule.method
          some (some (d.balde_response_set_header response "Allow" allow), app_copy, [])
        else
          let served := d.view view.view_func app_copy request
          some (some served.1, served.2, [balde_call_t.view view.view_func app_copy request])
      else
        some (none, d.balde_abort_set_error app_copy 405, [])

/-- The function `balde_app_main_loop` (`app.c`, lines 521-601); `fuel` bounds
the number of hook calls of the loop over the hooks. The result is `none`
where the C code has no defined behaviour (a `NULL` view, or a `response` that
was never assigned) and where the loop over the hooks has not ended after
`fuel` calls. The private part is shared between the application and its
copy, so what is done to the private part of the copy is done to the
application. -/
def balde_app_main_loop (d : Collaborators) (fuel : Nat) (app : balde_app_t)
    (env : balde_request_env_t) (render : balde_response_t → Bool → String) :
    Option balde_main_loop_t :=
  match app.error with
  | some error =>
    let error_response := d.balde_make_response_from_exception error
    some
      { rv := render error_response true,
        status_code := error_response.status_code,
        app := app,
        app_copy := none,
        calls := [balde_call_t.render error_response true] }
  | none =>
    let request := d.balde_make_request app env
    match balde_app_run_before_requests d fuel 0 app request with
    | none => none
    | some hooked =>
      let app := hooked.1
      let request := hooked.2.1
      let app_copy := balde_app_copy app
      let with_body := (request.method &&& BALDE_HTTP_HEAD) == 0
      let found := d.balde_dispatch_from_path app_copy.priv.views request.path
      let request := { request with view_args := found.2 }
      let calls := hooked.2.2 ++ [balde_call_t.dispatch app_copy.priv.views request.path]
      match balde_app_main_loop_view d app_copy request found.1 with
      | none => none
      | some served =>
        let app_copy := served.2.1
        let calls := calls ++ served.2.2
        match app_copy.error with
        | some error =>
          let error_response := d.balde_make_response_from_exception error
          some
            { rv := render error_response with_body,
              status_code := error_response.status_code,
              app := { app with priv := app_copy.priv },
              app_copy := some app_copy,
              calls := calls ++ [balde_call_t.render error_response with_body] }
        | none =>
          match served.1 with
          | none => none
          | some response =>
            some
              { rv := render response with_body,
                status_code := response.status_code,
                app := { app with priv := app_copy.priv },
                app_copy := some app_copy,
                calls := calls ++ [balde_call_t.render response with_body] }

/-- The response `balde_app_main_loop` renders (`app.c`, lines 584-596): the
error response built from the error on the per-request copy when there is
one, the response at hand otherwise. -/
def balde_app_main_loop_response (d : Collaborators) (response : balde_response_t)
    (app_copy : balde_app_t) : balde_response_t :=
  match app_copy.error with
  | some error => d.balde_make_response_from_exception error
  | none => response

/-! ## Template generator (`template/template.c`) -/

/-- The kind of an argument of a function call block, as `template.c` reads
it (the type is declared in `template/parser.h`, not at hand). -/
inductive balde_template_fn_arg_type_t where
  | BALDE_TEMPLATE_FN_ARG_STRING
  | BALDE_TEMPLATE_FN_ARG_INT
  | BALDE_TEMPLATE_FN_ARG_FLOAT
  | BALDE_TEMPLATE_FN_ARG_BOOL
  | BALDE_TEMPLATE_FN_ARG_NULL
  | BALDE_TEMPLATE_FN_ARG_VAR
deriving DecidableEq, Repr

/-- An argument of a function call block: its kind and its text. -/
structure balde_template_fn_arg_t where
  type : balde_template_fn_arg_type_t
  content : String
deriving DecidableEq, Repr

/-- A block of a parsed template, as `template.c` reads it (the types are
declared in `template/parser.h`, not at hand): an include block with the name
of the header, a content block with its literal text, a block that prints a
template value with the name of the value, a block that prints the result of a
function call with the name of the function and its arguments. -/
inductive balde_template_block_t where
  | BALDE_TEMPLATE_INCLUDE_BLOCK (header : String)
  | BALDE_TEMPLATE_CONTENT_BLOCK (content : String)
  | BALDE_TEMPLATE_PRINT_VAR_BLOCK (name : String)
  | BALDE_TEMPLATE_PRINT_FN_CALL_BLOCK (name : String) (args : List balde_template_fn_arg_t)
deriving DecidableEq, Repr

/-- The call `g_regex_replace_literal (re_percent, content, -1, 0, "%%", 0,
NULL)` of `balde_template_generate_source` (lines 24 and 48-49), with
`re_percent` the regular expression `%`: every percent sign becomes two. -/
def balde_template_escape_percent (content : String) : String :=
  String.mk (content.data.flatMap (fun c => if c = '%' then ['%', '%'] else [c]))

/-- The octal escape GLib's `g_strescape` writes for one byte: a backslash and
three octal digits. -/
def g_strescape_octal (byte : Nat) : List Char :=
  [Char.ofNat 92, Char.ofNat (48 + byte / 64 % 8), Char.ofNat (48 + byte / 8 % 8),
    Char.ofNat (48 + byte % 8)]

/-- What GLib's `g_strescape` writes for one character that is not among the
exceptions: backspace, form feed, newline, carriage return, tab, vertical tab,
backslash and double quote get a backslash escape; every other byte below
space or from 0x7f on gets an octal escape; every other character is kept. -/
def g_strescape_char (c : Char) : List Char :=
  if c.toNat = 8 then [Char.ofNat 92, 'b']
  else if c.toNat = 12 then [Char.ofNat 92, 'f']
  else if c.toNat = 10 then [Char.ofNat 92, 'n']
  else if c.toNat = 13 then [Char.ofNat 92, 'r']
  else if c.toNat = 9 then [Char.ofNat 92, 't']
  else if c.toNat = 11 then [Char.ofNat 92, 'v']
  else if c.toNat = 92 then [Char.ofNat 92, Char.ofNat 92]
  else if c.toNat = 34 then [Char.ofNat 92, Char.ofNat 34]
  else if c.toNat < 32 ∨ 127 ≤ c.toNat then
    (String.utf8EncodeChar c).flatMap (fun byte => g_strescape_octal byte.toNat)
  else [c]

/-- GLib's `g_strescape (source, exceptions)`. -/
def g_strescape (source exceptions : String) : String :=
  String.mk
    (source.data.flatMap
      (fun c => if exceptions.data.contains c then [c] else g_strescape_char c))

/-- The variables `includes`, `decls`, `frees`, `decl_count`, `parsed` and
`printf_args` of `balde_template_generate_source` (lines 26-31). -/
structure balde_template_state_t where
  includes : String
  decls : String
  frees : String
  decl_count : Nat
  parsed : String
  printf_args : List String
deriving DecidableEq, Repr

/-- The loop over the arguments of a function call block (`template.c`, lines
69-90): what it appends to `decls`. -/
def balde_template_fn_args : List balde_template_fn_arg_t → String
  | [] => ""
  | arg :: tmp2 =>
    (match arg.type with
      | balde_template_fn_arg_type_t.BALDE_TEMPLATE_FN_ARG_VAR =>
        "        balde_response_get_tmpl_var(response, \"" ++ arg.content ++ "\")"
      | _ => "        " ++ arg.content) ++
    (if tmp2.isEmpty then ");\n" else ",\n") ++
    balde_template_fn_args tmp2

/-- One turn of the loop over the blocks (`template.c`, lines 40-95). -/
def balde_template_block (state : balde_template_state_t) :
    balde_template_block_t → balde_template_state_t
  | balde_template_block_t.BALDE_TEMPLATE_INCLUDE_BLOCK header =>
    { state with includes := state.includes ++ "#include <" ++ header ++ ">\n" }
  | balde_template_block_t.BALDE_TEMPLATE_CONTENT_BLOCK content =>
    { state with parsed := state.parsed ++ balde_template_escape_percent content }
  | balde_template_block_t.BALDE_TEMPLATE_PRINT_VAR_BLOCK name =>
    { state with
      parsed := state.parsed ++ "%s",
      printf_args := g_slist_append state.printf_args
        ("        balde_response_get_tmpl_var(response, \"" ++ name ++ "\")") }
  | balde_template_block_t.BALDE_TEMPLATE_PRINT_FN_CALL_BLOCK name args =>
    { state with
      parsed := state.parsed ++ "%s",
      decls := state.decls ++ "    gchar *a" ++ toString state.decl_count ++ " = balde_tmpl_" ++
        name ++ "(app, request" ++ (if args.isEmpty then ");\n" else ",\n") ++
        balde_template_fn_args args,
      printf_args := g_slist_append state.printf_args
        ("        a" ++ toString state.decl_count),
      frees := state.frees ++ "    g_free(a" ++ toString state.decl_count ++ ");\n",
      decl_count := state.decl_count + 1 }

/-- The loop over the blocks (`template.c`, lines 39-96). -/
def balde_template_blocks (state : balde_template_state_t) :
    List balde_template_block_t → balde_template_state_t
  | [] => state
  | node :: tmp => balde_template_blocks (balde_template_block state node) tmp

/-- The loop over `printf_args` (`template.c`, lines 137-143). -/
def balde_template_printf_args : List String → String
  | [] => ""
  | data :: next =>
    data ++ (if next.isEmpty then ");\n" else ",\n") ++ balde_template_printf_args next

/-- The function `balde_template_generate_source` (`template.c`, lines
21-153) from the blocks of the template on: the C source it returns. -/
def balde_template_generate_source_blocks (template_name : String)
    (blocks : List balde_template_block_t) : String :=
  let state := balde_template_blocks
    { includes := "", decls := "", frees := "", decl_count := 1, parsed := "",
      printf_args := [] } blocks
  let escaped := g_strescape state.parsed ""
  "// WARNING: this file was generated automatically by balde-template-gen\n" ++
    "\n" ++
    "#include <balde.h>\n" ++
    "#include <glib.h>\n" ++
    state.includes ++ "\n" ++
    "static const gchar *balde_template_" ++ template_name ++ "_format = \"" ++ escaped ++
    "\";\n" ++
    "extern void balde_template_" ++ template_name ++
    "(balde_app_t *app, balde_request_t *request, " ++
    "balde_response_t *response);\n" ++
    "\n" ++
    "void\n" ++
    "balde_template_" ++ template_name ++
    "(balde_app_t *app, balde_request_t *request, balde_response_t *response)\n" ++
    "\x7b\n" ++ state.decls ++
    (if state.printf_args.isEmpty then
      "    gchar *rv = g_strdup(balde_template_" ++ template_name ++ "_format);\n"
    else
      "    gchar *rv = g_strdup_printf(balde_template_" ++ template_name ++ "_format,\n") ++
    balde_template_printf_args state.printf_args ++
    "    balde_response_append_body(response, rv);\n" ++ state.frees ++
    "    g_free(rv);\n" ++
    "\x7d\n"

/-- The function `balde_template_generate_source` (`template.c`, lines
21-153); `balde_template_parse` is the template parser of
`template/parser.c`, not at hand. -/
def balde_template_generate_source (balde_template_parse : String → List balde_template_block_t)
    (template_name template_source : String) : String :=
  balde_template_generate_source_blocks template_name (balde_template_parse template_source)

/-- The content of a template made of content blocks only: the texts of the
blocks, one after the other. -/
def balde_template_contents : List String → String
  | [] => ""
  | content :: contents => content ++ balde_template_contents contents

/-- GLib's `g_ascii_isalpha` on a byte. -/
def g_ascii_isalpha (c : UInt8) : Bool :=
  (65 ≤ c && c ≤ 90) || (97 ≤ c && c ≤ 122)

/-- GLib's `g_path_get_basename` on a byte string, with `/` (47) the
directory separator: `.` for the empty string, `/` for a string of slashes,
else what follows the last slash once the trailing slashes are dropped. -/
def g_path_get_basename (file_name : List UInt8) : List UInt8 :=
  if file_name.isEmpty then [46]
  else if (file_name.rdropWhile (fun c => c == 47)).isEmpty then [47]
  else (file_name.rdropWhile (fun c => c == 47)).rtakeWhile (fun c => c != 47)

/-- The first loop of `balde_template_get_name` (`template.c`, lines
178-183), from the index `i` down to 1: the string is cut at the first dot
met; the byte at the index of the length is the terminating zero. -/
def balde_template_get_name_cut (template_name : List UInt8) : Nat → List UInt8
  | 0 => template_name
  | i + 1 =>
    if template_name[i + 1]? = some 46 then template_name.take (i + 1)
    else balde_template_get_name_cut template_name i

/-- The function `balde_template_get_name` (`template.c`, lines 174-190), on
byte strings. -/
def balde_template_get_name (template_basename : List UInt8) : List UInt8 :=
  let template_name := g_path_get_basename template_basename
  let template_name := balde_template_get_name_cut template_name template_name.length
  template_name.map (fun c => if g_ascii_isalpha c then c else 95)

/-! ## Contracts of the collaborators -/

/-- Modelled from the spec: what `balde_abort_set_error` (`exceptions.c`,
absent) does for the two codes `balde_app_main_loop` passes, on an application
whose error slot is empty: "set a `404` error on the copy", "set a `405` error
on the copy". The error goes into the error slot, nothing else changes, and
the error-to-response translator gives the response that status code. -/
def balde_abort_contract (d : Collaborators) : Prop :=
  ∀ (app : balde_app_t) (code : Nat), app.error = none → code = 404 ∨ code = 405 →
    ∃ error, d.balde_abort_set_error app code = { app with error := some error } ∧
      (d.balde_make_response_from_exception error).status_code = code

/-- Modelled from the spec: `resolve(routeTable, path)` of section 4.3, the
contract of `balde_dispatch_from_path` (`routing.c`, absent): an endpoint it
returns is the endpoint of an entry of the route table it was given. -/
def balde_dispatch_contract (d : Collaborators) : Prop :=
  ∀ (views : List balde_view_t) (path endpoint : String),
    (d.balde_dispatch_from_path views path).1 = some endpoint →
      ∃ view ∈ views, view.url_rule.endpoint = endpoint

/-- Modelled from the spec: a `RouteCompileError`, the error
`balde_parse_url_rule` reports for a malformed pattern, is "converted to a
`500`-class response" by the error-to-response translator. -/
def balde_compile_error_contract (d : Collaborators) : Prop :=
  ∀ (rule : String) (error : GError), d.balde_parse_url_rule rule = Except.error error →
    (d.balde_make_response_from_exception error).status_code = 500

/-! ## A sample embedding program

One implementation of the collaborators, small enough to evaluate, on which
the hypotheses of the theorems below are checked to be satisfiable. -/

/-- Sample pattern compiler: a rule compiles when it starts with a slash and
has as many `<` as `>`; the error names the offending pattern. -/
def sample_parse_url_rule (rule : String) : Except GError balde_url_rule_match_t :=
  if rule.data.head? = some '/' ∧ rule.data.count '<' = rule.data.count '>' then
    Except.ok { pieces := [rule], args := [] }
  else
    Except.error { domain := 2, code := 1, message := rule }

/-- Sample method table of the request builder. -/
def sample_str2method (method : String) : Nat :=
  if method = "OPTIONS" then BALDE_HTTP_OPTIONS
  else if method = "GET" then BALDE_HTTP_GET
  else if method = "HEAD" then BALDE_HTTP_HEAD
  else if method = "POST" then BALDE_HTTP_POST
  else if method = "PUT" then BALDE_HTTP_PUT
  else if method = "PATCH" then BALDE_HTTP_PATCH
  else if method = "DELETE" then BALDE_HTTP_DELETE
  else BALDE_HTTP_NONE

/-- Sample request builder. -/
def sample_make_request (_app : balde_app_t) (env : balde_request_env_t) : balde_request_t :=
  { method := sample_str2method env.request_method, path := env.path_info,
    script_name := env.script_name, headers := env.headers, view_args := [] }

/-- Sample dispatcher: the first entry whose rule is the path, literally. -/
def sample_dispatch_from_path (views : List balde_view_t) (path : String) :
    Option String × List (String × String) :=
  ((views.find? (fun view => view.url_rule.rule == path)).map
    (fun view => view.url_rule.endpoint), [])

/-- Sample rendering of a method mask. -/
def sample_list_allowed_methods (method : Nat) : String :=
  String.intercalate ", "
    (([(BALDE_HTTP_OPTIONS, "OPTIONS"), (BALDE_HTTP_GET, "GET"), (BALDE_HTTP_HEAD, "HEAD"),
        (BALDE_HTTP_POST, "POST"), (BALDE_HTTP_PUT, "PUT"), (BALDE_HTTP_PATCH, "PATCH"),
        (BALDE_HTTP_DELETE, "DELETE")].filter (fun entry => method &&& entry.1 ≠ 0)).map
      (fun entry => entry.2))

/-- Sample `balde_abort_set_error`: an HTTP error (domain 1) with the code. -/
def sample_abort_set_error (app : balde_app_t) (code : Nat) : balde_app_t :=
  { app with error := some { domain := 1, code := code, message := "aborted" } }

/-- Sample translator: an HTTP error keeps its code, any other error is a
500. -/
def sample_make_response_from_exception (error : GError) : balde_response_t :=
  { status_code := if error.domain = 1 then error.code.toNat else 500,
    headers := [("Content-Type", "text/plain")], body := error.message }

/-- Sample hooks: the hook at address 1 sets a configuration value; the hook
at address 3 registers the hook at address 0 with
`balde_app_add_before_request` while fewer than three hooks are registered;
every other hook leaves the application alone. -/
def sample_before_request (hook_func : balde_before_request_func_t) (app : balde_app_t)
    (request : balde_request_t) : balde_app_t × balde_request_t :=
  if hook_func = 1 then
    ({ app with
        priv := { app.priv with config := ("seen", some request.path) :: app.priv.config } },
      request)
  else if hook_func = 3 ∧ app.priv.before_requests.length < 3 then
    match balde_app_add_before_request app 0 with
    | Except.ok app1 => (app1, request)
    | Except.error _ => (app, request)
  else (app, request)

/-- Sample view functions: the view at address 1 aborts with 403; the view at
address 2 calls `balde_app_free_user_data` on the application it is given
(`app.c`, lines 190-197) and answers; every other view just answers. -/
def sample_view (view_func : balde_view_func_t) (app : balde_app_t) (_request : balde_request_t) :
    balde_response_t × balde_app_t :=
  match view_func with
  | balde_view_func_t.user 1 =>
    ({ status_code := 200, headers := [], body := "unreachable" },
      { app with error := some { domain := 1, code := 403, message := "forbidden" } })
  | balde_view_func_t.user 2 =>
    ({ status_code := 200, headers := [], body := "freed" },
      if app.priv.user_data_destroy_func ≠ none ∧ app.priv.user_data ≠ none then
        { app with priv := { app.priv with user_data := none } }
      else app)
  | _ => ({ status_code := 200, headers := [], body := "hello" }, app)

/-- The sample collaborators. -/
def sample : Collaborators :=
  { balde_parse_url_rule := sample_parse_url_rule,
    balde_make_request := sample_make_request,
    balde_dispatch_from_path := sample_dispatch_from_path,
    balde_list_allowed_methods := sample_list_allowed_methods,
    balde_make_response := fun body => { status_code := 200, headers := [], body := body },
    balde_response_set_header := fun response name value =>
      { response with headers := response.headers ++ [(name, value)] },
    balde_abort_set_error := sample_abort_set_error,
    balde_abort_set_error_with_description := fun app code description =>
      { app with error := some { domain := 1, code := code, message := description } },
    balde_make_response_from_exception := sample_make_response_from_exception,
    before_request := sample_before_request,
    view := sample_view }

/-- The sample collaborators of a program whose view functions stay away from
the shared private part: the view at address 2 answers like the view at
address 0. -/
def sample_quiet : Collaborators :=
  { sample with
    view := fun view_func app request =>
      if view_func = balde_view_func_t.user 2 then
        sample_view (balde_view_func_t.user 0) app request
      else sample_view view_func app request }

/-- Sample renderer: status, headers, and the body when it is asked for. -/
def sample_render (response : balde_response_t) (with_body : Bool) : String :=
  toString response.status_code ++ "; " ++
    String.join (response.headers.map (fun header => header.1 ++ ": " ++ header.2 ++ "; ")) ++
    (if with_body then response.body else "")

/-- Sample registration calls: five routes with valid patterns. -/
def sample_calls : List balde_url_rule_call_t :=
  [ { endpoint := "home", rule := "/", method := BALDE_HTTP_GET,
      view_func := balde_view_func_t.user 0 },
    { endpoint := "post", rule := "/post", method := BALDE_HTTP_POST,
      view_func := balde_view_func_t.user 3 },
    { endpoint := "put", rule := "/put", method := BALDE_HTTP_PUT,
      view_func := balde_view_func_t.user 3 },
    { endpoint := "deny", rule := "/deny", method := BALDE_HTTP_GET,
      view_func := balde_view_func_t.user 1 },
    { endpoint := "free", rule := "/free", method := BALDE_HTTP_GET,
      view_func := balde_view_func_t.user 2 } ]

/-- The application `balde_app_init` builds with the sample collaborators. -/
def sample_init : balde_app_t :=
  { priv :=
      { views :=
          [ { url_rule :=
                { endpoint := "static", rule := "/static/<path:file>",
                  match_ := { pieces := ["/static/<path:file>"], args := [] }, method := 7 },
              view_func := balde_view_func_t.balde_resource_view } ],
        before_requests := [], static_resources := [], user_data := none,
        user_data_destroy_func := none, config := [] },
    copy := false,
    error := none }

/-- The application the sample program registers: `balde_app_init` followed
by the calls of `sample_calls`. -/
def sample_app : balde_app_t :=
  match balde_app_register sample sample_calls with
  | Except.ok app => app
  | Except.error _ => sample_init

/-- The sample application with two before-request hooks registered and with
user data and a destructor set. -/
def sample_app_hooked : balde_app_t :=
  { sample_app with
    priv :=
      { sample_app.priv with
        before_requests := [0, 2], user_data := some 5, user_data_destroy_func := some 9 } }

/-- The entry the sample program stores for its endpoint `post`. -/
def sample_post_view : balde_view_t :=
  { url_rule :=
      { endpoint := "post", rule := "/post", match_ := { pieces := ["/post"], args := [] },
        method := 9 },
    view_func := balde_view_func_t.user 3 }

/-- Sample registration calls of a program that gives two routes the same
endpoint name: `e` for `POST /a` and again for `GET /b`. -/
def sample_shared_calls : List balde_url_rule_call_t :=
  [ { endpoint := "e", rule := "/a", method := BALDE_HTTP_POST,
      view_func := balde_view_func_t.user 3 },
    { endpoint := "e", rule := "/b", method := BALDE_HTTP_GET,
      view_func := balde_view_func_t.user 0 } ]

/-- The application that program registers: `balde_app_init` followed by the
calls of `sample_shared_calls`. -/
def sample_shared_app : balde_app_t :=
  match balde_app_register sample sample_shared_calls with
  | Except.ok app => app
  | Except.error _ => sample_init

/-- The entry the second call of `sample_shared_calls` stores: the route
`/b`, with mask `GET | HEAD | OPTIONS`. -/
def sample_shared_view : balde_view_t :=
  { url_rule :=
      { endpoint := "e", rule := "/b", match_ := { pieces := ["/b"], args := [] }, method := 7 },
    view_func := balde_view_func_t.user 0 }

/-- The collaborators of any embedding program, with the sample pattern
compiler, request builder and dispatcher. -/
def with_sample_routing (d : Collaborators) : Collaborators :=
  { d with
    balde_parse_url_rule := sample_parse_url_rule,
    balde_make_request := sample_make_request,
    balde_dispatch_from_path := sample_dispatch_from_path }

/-- Sample lower-casing: ASCII letters only. -/
def sample_strdown (name : String) : String :=
  String.mk (name.data.map Char.toLower)

/-- Sample environment of the process: one variable is set. -/
def sample_getenv (env_name : String) : Option String :=
  if env_name = "BALDE_SECRET" then some "s3cret" else none

/-- A sample application with one route whose compiled matcher has the two
literal pieces `/user/` and `/`, around one capture slot. -/
def sample_url_app : balde_app_t :=
  { sample_init with
    priv :=
      { sample_init.priv with
        views := sample_init.priv.views ++
          [{ url_rule :=
              { endpoint := "user", rule := "/user/<name>/",
                match_ := { pieces := ["/user/", "/"], args := ["name"] }, method := 7 },
             view_func := balde_view_func_t.user 0 }] } }

/-- The request the sample request builder makes. -/
def sample_request (method : Nat) (path : String) : balde_request_t :=
  { method := method, path := path, script_name := none, headers := [], view_args := [] }

/-- Sample environment of a request. -/
def sample_env (method path : String) : balde_request_env_t :=
  { request_method := method, path_info := path, query_string := "", headers := [],
    script_name := none }

/-! ## Registration: lemmas -/

theorem and_options_ne_zero (x : Nat) : x &&& BALDE_HTTP_OPTIONS ≠ 0 ↔ x.testBit 0 = true := by
  have h := Nat.and_two_pow x 0
  simp only [pow_zero, mul_one] at h
  rw [BALDE_HTTP_OPTIONS, h]
  cases x.testBit 0 <;> simp

theorem and_get_ne_zero (x : Nat) : x &&& BALDE_HTTP_GET ≠ 0 ↔ x.testBit 1 = true := by
  have h := Nat.and_two_pow x 1
  simp only [pow_one] at h
  rw [BALDE_HTTP_GET, h]
  cases x.testBit 1 <;> simp

theorem and_head_ne_zero (x : Nat) : x &&& BALDE_HTTP_HEAD ≠ 0 ↔ x.testBit 2 = true := by
  have h := Nat.and_two_pow x 2
  rw [BALDE_HTTP_HEAD, show (4 : Nat) = 2 ^ 2 from rfl, h]
  cases x.testBit 2 <;> simp

theorem balde_url_rule_method_eq (method : Nat) :
    balde_url_rule_method method =
      (method ||| BALDE_HTTP_OPTIONS) |||
        (if method &&& BALDE_HTTP_GET ≠ 0 then BALDE_HTTP_HEAD else 0) := by
  have hbit : Nat.testBit 1 1 = false := by decide
  have hget : (method ||| BALDE_HTTP_OPTIONS) &&& BALDE_HTTP_GET ≠ 0 ↔
      method &&& BALDE_HTTP_GET ≠ 0 := by
    rw [and_get_ne_zero, and_get_ne_zero, Nat.testBit_or]
    simp [BALDE_HTTP_OPTIONS, hbit]
  unfold balde_url_rule_method
  by_cases h : method &&& BALDE_HTTP_GET ≠ 0
  · show (if (method ||| BALDE_HTTP_OPTIONS) &&& BALDE_HTTP_GET ≠ 0 then _ else _) = _
    rw [if_pos (hget.mpr h), if_pos h]
  · have h2 : ¬ (method ||| BALDE_HTTP_OPTIONS) &&& BALDE_HTTP_GET ≠ 0 := fun hc => h (hget.mp hc)
    show (if (method ||| BALDE_HTTP_OPTIONS) &&& BALDE_HTTP_GET ≠ 0 then _ else _) = _
    rw [if_neg h2, if_neg h, Nat.or_zero]

theorem balde_url_rule_method_options (method : Nat) :
    balde_url_rule_method method &&& BALDE_HTTP_OPTIONS ≠ 0 := by
  have hbit : Nat.testBit 1 0 = true := by decide
  rw [balde_url_rule_method_eq, and_options_ne_zero]
  simp [Nat.testBit_or, BALDE_HTTP_OPTIONS, hbit]

theorem balde_url_rule_method_head (method : Nat)
    (h : balde_url_rule_method method &&& BALDE_HTTP_GET ≠ 0) :
    balde_url_rule_method method &&& BALDE_HTTP_HEAD ≠ 0 := by
  have hbit1 : Nat.testBit 1 1 = false := by decide
  have hbit2 : Nat.testBit 4 2 = true := by decide
  rw [balde_url_rule_method_eq] at h ⊢
  rw [and_get_ne_zero] at h
  rw [and_head_ne_zero]
  by_cases hg : method &&& BALDE_HTTP_GET ≠ 0
  · rw [if_pos hg]
    simp [Nat.testBit_or, BALDE_HTTP_HEAD, hbit2]
  · exfalso
    apply hg
    rw [and_get_ne_zero]
    rw [if_neg hg] at h
    simpa [Nat.testBit_or, BALDE_HTTP_OPTIONS, hbit1] using h

theorem balde_app_add_url_rule_eq (d : Collaborators) (app : balde_app_t)
    (call : balde_url_rule_call_t) (hcopy : app.copy = false) :
    balde_app_add_url_rule d app call.endpoint call.rule call.method call.view_func =
      Except.ok
        (match d.balde_parse_url_rule call.rule with
          | Except.error tmp_error =>
            { app with error := g_propagate_error app.error tmp_error }
          | Except.ok _ =>
            { app with
              priv :=
                { app.priv with
                  views := app.priv.views ++ (balde_view_of_call d call).toList } }) := by
  unfold balde_app_add_url_rule BALDE_APP_READ_ONLY balde_view_of_call g_slist_append
  rw [hcopy]
  cases d.balde_parse_url_rule call.rule <;> simp

theorem balde_app_add_url_rules_views (d : Collaborators) (calls : List balde_url_rule_call_t) :
    ∀ app : balde_app_t, app.copy = false →
      ∃ app1, balde_app_add_url_rules d app calls = Except.ok app1 ∧ app1.copy = false ∧
        app1.priv.views = app.priv.views ++ calls.filterMap (balde_view_of_call d) ∧
        app1.priv.before_requests = app.priv.before_requests := by
  induction calls with
  | nil => intro app hcopy; exact ⟨app, rfl, hcopy, by simp, rfl⟩
  | cons call calls ih =>
    intro app hcopy
    unfold balde_app_add_url_rules
    rw [balde_app_add_url_rule_eq d app call hcopy]
    cases hparse : d.balde_parse_url_rule call.rule with
    | error tmp_error =>
      obtain ⟨app1, h1, h2, h3, h4⟩ :=
        ih { app with error := g_propagate_error app.error tmp_error } hcopy
      refine ⟨app1, h1, h2, ?_, h4⟩
      rw [h3]
      simp [List.filterMap_cons, balde_view_of_call, hparse]
    | ok compiled =>
      obtain ⟨app1, h1, h2, h3, h4⟩ :=
        ih { app with
              priv :=
                { app.priv with
                  views := app.priv.views ++ (balde_view_of_call d call).toList } } hcopy
      refine ⟨app1, h1, h2, ?_, h4⟩
      rw [h3]
      simp [List.filterMap_cons, balde_view_of_call, hparse]

theorem balde_app_register_views (d : Collaborators) (calls : List balde_url_rule_call_t) :
    ∃ app, balde_app_register d calls = Except.ok app ∧ app.copy = false ∧
      app.priv.views = (balde_static_call :: calls).filterMap (balde_view_of_call d) := by
  have hinit := balde_app_add_url_rules_views d (balde_static_call :: calls)
    { priv :=
        { views := [], before_requests := [], static_resources := [], user_data := none,
          user_data_destroy_func := none, config := [] },
      copy := false,
      error := none } rfl
  obtain ⟨app, h1, h2, h3, _⟩ := hinit
  refine ⟨app, ?_, h2, by simpa using h3⟩
  rw [← h1]
  unfold balde_app_register balde_app_init
  conv_rhs => unfold balde_app_add_url_rules
  rfl

theorem balde_view_of_call_method (d : Collaborators) (call : balde_url_rule_call_t)
    (view : balde_view_t) (h : balde_view_of_call d call = some view) :
    view.url_rule.method = balde_url_rule_method call.method ∧
      view.url_rule.endpoint = call.endpoint ∧ view.url_rule.rule = call.rule ∧
      view.view_func = call.view_func ∧
      d.balde_parse_url_rule call.rule = Except.ok view.url_rule.match_ := by
  unfold balde_view_of_call at h
  cases hparse : d.balde_parse_url_rule call.rule with
  | error tmp_error => simp [hparse] at h
  | ok compiled =>
    simp only [hparse, Option.some.injEq] at h
    subst h
    exact ⟨rfl, rfl, rfl, rfl, rfl⟩

theorem balde_views_registered_method (d : Collaborators) (views : List balde_view_t)
    (hreg : balde_views_registered d views) (view : balde_view_t) (hview : view ∈ views) :
    ∃ method, view.url_rule.method = balde_url_rule_method method := by
  obtain ⟨calls, app, happ, hviews⟩ := hreg
  obtain ⟨app1, h1, _, h3⟩ := balde_app_register_views d calls
  rw [happ] at h1
  cases h1
  rw [← hviews, h3, List.mem_filterMap] at hview
  obtain ⟨call, _, hcall⟩ := hview
  exact ⟨call.method, (balde_view_of_call_method d call view hcall).1⟩

/-! ## Registration: the claims -/

/-- C1: registration by `balde_app_init` followed by any sequence of
`balde_app_add_url_rule` calls returns an application, and every entry of its
route table (the built-in static route included) has `OPTIONS` in its mask,
has `HEAD` whenever it has `GET`, and is the entry of one of the calls, with
as mask exactly the requested mask with `OPTIONS` added, and `HEAD` added if
and only if `GET` was requested. -/
theorem C1_registered_masks (d : Collaborators) (calls : List balde_url_rule_call_t) :
    ∃ app, balde_app_register d calls = Except.ok app ∧
      ∀ view ∈ app.priv.views,
        view.url_rule.method &&& BALDE_HTTP_OPTIONS ≠ 0 ∧
        (view.url_rule.method &&& BALDE_HTTP_GET ≠ 0 →
          view.url_rule.method &&& BALDE_HTTP_HEAD ≠ 0) ∧
        ∃ call ∈ balde_static_call :: calls,
          balde_view_of_call d call = some view ∧
          view.url_rule.method =
            (call.method ||| BALDE_HTTP_OPTIONS) |||
              (if call.method &&& BALDE_HTTP_GET ≠ 0 then BALDE_HTTP_HEAD else 0) := by
  obtain ⟨app, happ, _, hviews⟩ := balde_app_register_views d calls
  refine ⟨app, happ, ?_⟩
  intro view hview
  rw [hviews, List.mem_filterMap] at hview
  obtain ⟨call, hmem, hcall⟩ := hview
  have hmethod := (balde_view_of_call_method d call view hcall).1
  refine ⟨?_, ?_, call, hmem, hcall, ?_⟩
  · rw [hmethod]; exact balde_url_rule_method_options call.method
  · rw [hmethod]; exact balde_url_rule_method_head call.method
  · rw [hmethod]; exact balde_url_rule_method_eq call.method

/-- C2: on an application that is not a per-request copy,
`balde_app_add_url_rule` with a pattern that compiles returns the application
with the new entry appended after the existing entries, which keep their
places; and the route table of an application built by registration lists
the entries of the calls whose pattern compiled in the order of the calls,
after the built-in static route. -/
theorem C2_append_in_order (d : Collaborators) (app : balde_app_t) (endpoint rule : String)
    (method : Nat) (view_func : balde_view_func_t) (compiled : balde_url_rule_match_t)
    (hcopy : app.copy = false) (hvalid : d.balde_parse_url_rule rule = Except.ok compiled) :
    (∃ app1, balde_app_add_url_rule d app endpoint rule method view_func = Except.ok app1 ∧
      app1.priv.views = app.priv.views ++
        [{ url_rule :=
            { endpoint := endpoint, rule := rule, match_ := compiled,
              method := balde_url_rule_method method },
           view_func := view_func }]) ∧
    ∀ calls : List balde_url_rule_call_t,
      ∃ app2, balde_app_register d calls = Except.ok app2 ∧
        app2.priv.views = (balde_static_call :: calls).filterMap (balde_view_of_call d) := by
  constructor
  · unfold balde_app_add_url_rule BALDE_APP_READ_ONLY g_slist_append
    rw [hcopy, hvalid]
    exact ⟨_, rfl, rfl⟩
  · intro calls
    obtain ⟨app2, h1, _, h3⟩ := balde_app_register_views d calls
    exact ⟨app2, h1, h3⟩

/-- C2, at the sample program: a route is appended to the application
`balde_app_init` built. -/
theorem C2_append_in_order_witness :
    (∃ app1, balde_app_add_url_rule sample sample_init "home" "/" BALDE_HTTP_GET
        (balde_view_func_t.user 0) = Except.ok app1 ∧
      app1.priv.views = sample_init.priv.views ++
        [{ url_rule :=
            { endpoint := "home", rule := "/", match_ := { pieces := ["/"], args := [] },
              method := balde_url_rule_method BALDE_HTTP_GET },
           view_func := balde_view_func_t.user 0 }]) ∧
    ∀ calls : List balde_url_rule_call_t,
      ∃ app2, balde_app_register sample calls = Except.ok app2 ∧
        app2.priv.views =
          (balde_static_call :: calls).filterMap (balde_view_of_call sample) :=
  C2_append_in_order sample sample_init "home" "/" BALDE_HTTP_GET (balde_view_func_t.user 0)
    { pieces := ["/"], args := [] } rfl rfl

/-- C8, as stated, fails: on an application whose error slot already holds
the compile error of the pattern `<a`, registering the malformed pattern `<b`
returns normally and leaves the route table alone, but the slot still holds
the error of `<a`, not the compile error of `<b`. -/
theorem C8_counterexample :
    sample.balde_parse_url_rule "<b" = Except.error { domain := 2, code := 1, message := "<b" } ∧
    ∃ app1,
      balde_app_add_url_rule sample
        { sample_init with error := some { domain := 2, code := 1, message := "<a" } }
        "b" "<b" BALDE_HTTP_GET (balde_view_func_t.user 0) = Except.ok app1 ∧
      app1.priv = sample_init.priv ∧
      app1.error = some { domain := 2, code := 1, message := "<a" } ∧
      app1.error ≠ some { domain := 2, code := 1, message := "<b" } := by
  refine ⟨rfl, _, rfl, rfl, rfl, by decide⟩

/-- C8, amended: when the pattern given to `balde_app_add_url_rule`, called
on an application that is not a per-request copy, fails to compile, the call
returns normally and leaves everything but the error slot as it was (no entry
is added); the compile error is stored in the error slot when the slot is
empty, and a slot that already holds an error keeps that error. -/
theorem C8_compile_error_deferred (d : Collaborators) (app : balde_app_t) (endpoint rule : String)
    (method : Nat) (view_func : balde_view_func_t) (tmp_error : GError)
    (hcopy : app.copy = false)
    (hfail : d.balde_parse_url_rule rule = Except.error tmp_error) :
    ∃ app1, balde_app_add_url_rule d app endpoint rule method view_func = Except.ok app1 ∧
      app1.priv = app.priv ∧ app1.copy = app.copy ∧
      (app.error = none → app1.error = some tmp_error) ∧
      (∀ error, app.error = some error → app1.error = some error) := by
  unfold balde_app_add_url_rule BALDE_APP_READ_ONLY
  rw [hcopy, hfail]
  refine ⟨_, rfl, rfl, rfl, ?_, ?_⟩
  · intro h; simp [h, g_propagate_error]
  · intro error h; simp [h, g_propagate_error]

/-- C8, amended, at the sample program: the unterminated placeholder `<path:`
on the application `balde_app_init` built. -/
theorem C8_compile_error_deferred_witness :
    ∃ app1, balde_app_add_url_rule sample sample_init "broken" "<path:" BALDE_HTTP_GET
        (balde_view_func_t.user 0) = Except.ok app1 ∧
      app1.priv = sample_init.priv ∧ app1.copy = sample_init.copy ∧
      (sample_init.error = none →
        app1.error = some { domain := 2, code := 1, message := "<path:" }) ∧
      (∀ error, sample_init.error = some error → app1.error = some error) :=
  C8_compile_error_deferred sample sample_init "broken" "<path:" BALDE_HTTP_GET
    (balde_view_func_t.user 0) { domain := 2, code := 1, message := "<path:" } rfl rfl

/-! ## Request lifecycle: lemmas -/

/-- The part of `balde_app_main_loop` after the dispatch (`app.c`, lines
582-600), as a function of what the dispatch part left. -/
theorem balde_app_main_loop_eq (d : Collaborators) (fuel : Nat) (app : balde_app_t)
    (env : balde_request_env_t)
    (render : balde_response_t → Bool → String) (app1 : balde_app_t) (request : balde_request_t)
    (hook_calls : List balde_call_t) (endpoint : Option String)
    (view_args : List (String × String))
    (herror : app.error = none)
    (hhooks : balde_app_run_before_requests d fuel 0 app
      (d.balde_make_request app env) = some (app1, request, hook_calls))
    (hfound : d.balde_dispatch_from_path app1.priv.views request.path = (endpoint, view_args)) :
    balde_app_main_loop d fuel app env render =
      match balde_app_main_loop_view d (balde_app_copy app1)
          { request with view_args := view_args } endpoint with
      | none => none
      | some served =>
        match served.2.1.error with
        | some error =>
          some
            { rv := render (d.balde_make_response_from_exception error)
                ((request.method &&& BALDE_HTTP_HEAD) == 0),
              status_code := (d.balde_make_response_from_exception error).status_code,
              app := { app1 with priv := served.2.1.priv },
              app_copy := some served.2.1,
              calls := hook_calls ++ [balde_call_t.dispatch app1.priv.views request.path] ++
                served.2.2 ++
                [balde_call_t.render (d.balde_make_response_from_exception error)
                  ((request.method &&& BALDE_HTTP_HEAD) == 0)] }
        | none =>
          match served.1 with
          | none => none
          | some response =>
            some
              { rv := render response ((request.method &&& BALDE_HTTP_HEAD) == 0),
                status_code := response.status_code,
                app := { app1 with priv := served.2.1.priv },
                app_copy := some served.2.1,
                calls := hook_calls ++ [balde_call_t.dispatch app1.priv.views request.path] ++
                  served.2.2 ++
                  [balde_call_t.render response ((request.method &&& BALDE_HTTP_HEAD) == 0)] } := by
  unfold balde_app_main_loop
  rw [herror]
  simp only [hhooks]
  have hcopy : (balde_app_copy app1).priv.views = app1.priv.views := rfl
  simp only [hcopy, hfound]

/-- The calls the loop over the hooks makes are calls of hooks. -/
theorem balde_app_run_before_requests_calls (d : Collaborators) (fuel : Nat) :
    ∀ (index : Nat) (app : balde_app_t) (request : balde_request_t)
      (result : balde_app_t × balde_request_t × List balde_call_t),
      balde_app_run_before_requests d fuel index app request = some result →
      ∀ call ∈ result.2.2,
        ∃ hook_func app0 request0, call = balde_call_t.before_request hook_func app0 request0 := by
  induction fuel with
  | zero =>
    intro index app request result hrun call hcall
    unfold balde_app_run_before_requests at hrun
    cases hhook : app.priv.before_requests[index]? with
    | none =>
      simp only [hhook, Option.some.injEq] at hrun
      subst hrun
      simp at hcall
    | some hook_func => simp [hhook] at hrun
  | succ fuel ih =>
    intro index app request result hrun call hcall
    unfold balde_app_run_before_requests at hrun
    cases hhook : app.priv.before_requests[index]? with
    | none =>
      simp only [hhook, Option.some.injEq] at hrun
      subst hrun
      simp at hcall
    | some hook_func =>
      simp only [hhook] at hrun
      cases hrest : balde_app_run_before_requests d fuel (index + 1)
          (d.before_request hook_func app request).1
          (d.before_request hook_func app request).2 with
      | none => simp [hrest] at hrun
      | some rest =>
        simp only [hrest, Option.some.injEq] at hrun
        subst hrun
        simp only [List.mem_cons] at hcall
        rcases hcall with hcall | hcall
        · exact ⟨hook_func, app, request, hcall⟩
        · exact ih _ _ _ rest hrest call hcall

/-- With no hook registered the loop over the hooks makes no call, whatever
the fuel. -/
theorem balde_app_run_before_requests_nil (d : Collaborators) (fuel index : Nat)
    (app : balde_app_t) (request : balde_request_t) (hnil : app.priv.before_requests = []) :
    balde_app_run_before_requests d fuel index app request = some (app, request, []) := by
  cases fuel <;> unfold balde_app_run_before_requests <;> simp [hnil]

/-- Where no hook changes the list of hooks, the loop over the hooks comes to
its end: as many calls as the list has hooks from place `index` on are
enough. -/
theorem balde_app_run_before_requests_ends (d : Collaborators)
    (hfixed : ∀ (hook_func : balde_before_request_func_t) (app : balde_app_t)
      (request : balde_request_t),
      (d.before_request hook_func app request).1.priv.before_requests =
        app.priv.before_requests)
    (fuel : Nat) :
    ∀ (index : Nat) (app : balde_app_t) (request : balde_request_t),
      app.priv.before_requests.length ≤ index + fuel →
      (balde_app_run_before_requests d fuel index app request).isSome = true := by
  induction fuel with
  | zero =>
    intro index app request hlength
    unfold balde_app_run_before_requests
    rw [List.getElem?_eq_none (by omega)]
    rfl
  | succ fuel ih =>
    intro index app request hlength
    unfold balde_app_run_before_requests
    cases hhook : app.priv.before_requests[index]? with
    | none => rfl
    | some hook_func =>
      have hnext := ih (index + 1) (d.before_request hook_func app request).1
        (d.before_request hook_func app request).2
        (by rw [hfixed]; omega)
      obtain ⟨rest, hrest⟩ := Option.isSome_iff_exists.mp hnext
      simp only [hrest]
      rfl

/-- The entry `balde_app_get_view_from_endpoint` returns is the first entry
of the table with the endpoint name. -/
theorem balde_app_get_view_from_endpoint_first (app : balde_app_t) (endpoint : String)
    (view : balde_view_t) (h : balde_app_get_view_from_endpoint app endpoint = some view) :
    view.url_rule.endpoint = endpoint ∧
      ∃ before after, app.priv.views = before ++ view :: after ∧
        ∀ other ∈ before, other.url_rule.endpoint ≠ endpoint := by
  unfold balde_app_get_view_from_endpoint at h
  rw [List.find?_eq_some] at h
  obtain ⟨hname, before, after, hsplit, hbefore⟩ := h
  refine ⟨by simpa using hname, before, after, hsplit, ?_⟩
  intro other hother
  simpa using hbefore other hother

/-- An entry of the table that no entry before it shares its endpoint name
with is the entry `balde_app_get_view_from_endpoint` returns for that name. -/
theorem balde_app_get_view_from_endpoint_of_first (app : balde_app_t) (view : balde_view_t)
    (before after : List balde_view_t) (hsplit : app.priv.views = before ++ view :: after)
    (hbefore : ∀ other ∈ before, other.url_rule.endpoint ≠ view.url_rule.endpoint) :
    balde_app_get_view_from_endpoint app view.url_rule.endpoint = some view := by
  unfold balde_app_get_view_from_endpoint
  rw [List.find?_eq_some]
  refine ⟨by simp, before, after, hsplit, ?_⟩
  intro other hother
  simpa using hbefore other hother

/-- For the name of an entry of the table `balde_app_get_view_from_endpoint`
returns an entry. -/
theorem balde_app_get_view_from_endpoint_some (app : balde_app_t) (resolved : balde_view_t)
    (hresolved : resolved ∈ app.priv.views) :
    ∃ view, balde_app_get_view_from_endpoint app resolved.url_rule.endpoint = some view := by
  unfold balde_app_get_view_from_endpoint
  cases hfind : app.priv.views.find?
      (fun view => view.url_rule.endpoint == resolved.url_rule.endpoint) with
  | some view => exact ⟨view, rfl⟩
  | none =>
    rw [List.find?_eq_none] at hfind
    exact absurd (hfind resolved hresolved) (by simp)

theorem balde_app_get_view_from_endpoint_mem (app : balde_app_t) (endpoint : String)
    (view : balde_view_t) (h : balde_app_get_view_from_endpoint app endpoint = some view) :
    view ∈ app.priv.views :=
  List.mem_of_find?_eq_some h

/-! ## Request lifecycle: the claims -/

/-- C3, as the claim words it, fails where two routes share an endpoint
name. The sample program registers `e` for `POST /a` and `e` for `GET /b`. The
dispatcher resolves `/b` to the second entry, a registered entry with mask
`GET | HEAD | OPTIONS`, and hands back its endpoint name `e`; the main loop
looks the name up again and finds the first entry, so `OPTIONS /b` is answered
with `Allow: OPTIONS, POST`, the method list of the mask of `/a`, and not with
the method list of the mask of the entry `/b`, `OPTIONS, GET, HEAD`. -/
theorem C3_counterexample :
    balde_views_registered sample sample_shared_app.priv.views ∧
    sample_shared_app.priv.views.find? (fun view => view.url_rule.rule == "/b") =
      some sample_shared_view ∧
    sample_shared_view ∈ sample_shared_app.priv.views ∧
    sample.balde_dispatch_from_path sample_shared_app.priv.views "/b" =
      (some sample_shared_view.url_rule.endpoint, []) ∧
    sample.balde_list_allowed_methods sample_shared_view.url_rule.method = "OPTIONS, GET, HEAD" ∧
    balde_app_main_loop sample 8 sample_shared_app (sample_env "OPTIONS" "/b") sample_render =
      some
        { rv := "200; Allow: OPTIONS, POST; ",
          status_code := 200,
          app := sample_shared_app,
          app_copy := some (balde_app_copy sample_shared_app),
          calls :=
            [balde_call_t.dispatch sample_shared_app.priv.views "/b",
              balde_call_t.render
                { status_code := 200, headers := [("Allow", "OPTIONS, POST")], body := "" }
                true] } :=
  ⟨⟨sample_shared_calls, sample_shared_app, rfl, rfl⟩, rfl, by decide, rfl, by decide, rfl⟩

/-- C3, amended: for an application without stored error whose route table,
as the dispatcher sees it, was built by registration, and a request with
method `OPTIONS` whose path the dispatcher resolves to an entry of the table
(it hands back that entry's endpoint name), `balde_app_main_loop` returns the
rendering, with body, of `balde_make_response("")` with the `Allow` header set
to `balde_list_allowed_methods` of the mask of the first entry of the table
that has the resolved entry's endpoint name: the resolved entry or an entry
before it, and the resolved entry itself when no entry before it has its
endpoint name. The calls it makes are the hooks, the dispatcher and the renderer: no
view function is called, and the per-request copy carries no error (no
405). -/
theorem C3_options_automatic (d : Collaborators) (fuel : Nat) (app : balde_app_t)
    (env : balde_request_env_t)
    (render : balde_response_t → Bool → String) (app1 : balde_app_t) (request : balde_request_t)
    (hook_calls : List balde_call_t) (view_args : List (String × String))
    (resolved : balde_view_t)
    (herror : app.error = none)
    (hhooks : balde_app_run_before_requests d fuel 0 app
      (d.balde_make_request app env) = some (app1, request, hook_calls))
    (hregistered : balde_views_registered d app1.priv.views)
    (hmethod : request.method = BALDE_HTTP_OPTIONS)
    (hresolved : resolved ∈ app1.priv.views)
    (hfound : d.balde_dispatch_from_path app1.priv.views request.path =
      (some resolved.url_rule.endpoint, view_args)) :
    ∃ (view : balde_view_t) (before after : List balde_view_t),
      app1.priv.views = before ++ view :: after ∧
      view.url_rule.endpoint = resolved.url_rule.endpoint ∧
      (∀ other ∈ before, other.url_rule.endpoint ≠ resolved.url_rule.endpoint) ∧
      (view = resolved ∨ resolved ∈ after) ∧
      ((∃ before1 after1, app1.priv.views = before1 ++ resolved :: after1 ∧
          ∀ other ∈ before1, other.url_rule.endpoint ≠ resolved.url_rule.endpoint) →
        view = resolved) ∧
      balde_app_main_loop d fuel app env render =
        some
          { rv := render
              (d.balde_response_set_header (d.balde_make_response "") "Allow"
                (d.balde_list_allowed_methods view.url_rule.method)) true,
            status_code :=
              (d.balde_response_set_header (d.balde_make_response "") "Allow"
                (d.balde_list_allowed_methods view.url_rule.method)).status_code,
            app := app1,
            app_copy := some (balde_app_copy app1),
            calls := hook_calls ++
              [balde_call_t.dispatch app1.priv.views request.path,
                balde_call_t.render
                  (d.balde_response_set_header (d.balde_make_response "") "Allow"
                    (d.balde_list_allowed_methods view.url_rule.method)) true] } ∧
      (balde_app_copy app1).error = none ∧
      ∀ view_func app_copy request1,
        balde_call_t.view view_func app_copy request1 ∉ hook_calls := by
  obtain ⟨view, hview⟩ :=
    balde_app_get_view_from_endpoint_some (balde_app_copy app1) resolved hresolved
  obtain ⟨hname, before, after, hsplit, hbefore⟩ :=
    balde_app_get_view_from_endpoint_first _ _ _ hview
  have hsplit1 : app1.priv.views = before ++ view :: after := hsplit
  have hmem : view ∈ app1.priv.views := balde_app_get_view_from_endpoint_mem _ _ _ hview
  obtain ⟨method, hmask⟩ := balde_views_registered_method d _ hregistered view hmem
  have hoptions : request.method &&& view.url_rule.method ≠ 0 := by
    rw [hmethod, hmask, Nat.land_comm]
    exact balde_url_rule_method_options method
  refine ⟨view, before, after, hsplit1, hname, hbefore, ?_, ?_, ?_, rfl, ?_⟩
  · have hin := hresolved
    rw [hsplit1, List.mem_append, List.mem_cons] at hin
    rcases hin with hin | hin | hin
    · exact absurd rfl (hbefore resolved hin)
    · exact Or.inl hin.symm
    · exact Or.inr hin
  · rintro ⟨before1, after1, hsplit2, hbefore2⟩
    have hfirst := balde_app_get_view_from_endpoint_of_first (balde_app_copy app1) resolved
      before1 after1 hsplit2 hbefore2
    rw [hview] at hfirst
    exact Option.some.inj hfirst
  · rw [balde_app_main_loop_eq d fuel app env render app1 request hook_calls
      (some resolved.url_rule.endpoint) view_args herror hhooks hfound]
    have hserved : balde_app_main_loop_view d (balde_app_copy app1)
        { request with view_args := view_args } (some resolved.url_rule.endpoint) =
        some (some (d.balde_response_set_header (d.balde_make_response "") "Allow"
          (d.balde_list_allowed_methods view.url_rule.method)), balde_app_copy app1, []) := by
      unfold balde_app_main_loop_view
      simp only [hview]
      rw [if_pos hoptions, if_pos hmethod]
    rw [hserved]
    have hbody : ((request.method &&& BALDE_HTTP_HEAD) == 0) = true := by
      rw [hmethod]; decide
    simp [balde_app_copy, hbody]
  · intro view_func app_copy request1 hcall
    obtain ⟨_, _, _, h⟩ := balde_app_run_before_requests_calls d fuel 0 app
      (d.balde_make_request app env) _ hhooks _ hcall
    cases h

/-- C3, amended, at the sample program: `OPTIONS /post` on the registered
sample application, where no entry before the entry of `/post` has its
endpoint name: the `Allow` header is the method list of the mask of that
entry. -/
theorem C3_options_automatic_witness :
    sample_post_view ∈ sample_app.priv.views ∧
    sample_post_view.url_rule.method = BALDE_HTTP_POST ||| BALDE_HTTP_OPTIONS ∧
    balde_app_main_loop sample 8 sample_app (sample_env "OPTIONS" "/post") sample_render =
      some
        { rv := "200; Allow: OPTIONS, POST; ",
          status_code := 200,
          app := sample_app,
          app_copy := some (balde_app_copy sample_app),
          calls :=
            [balde_call_t.dispatch sample_app.priv.views "/post",
              balde_call_t.render
                { status_code := 200, headers := [("Allow", "OPTIONS, POST")], body := "" }
                true] } := by
  obtain ⟨view, before, after, _, _, _, _, hsame, hloop, _, _⟩ :=
    C3_options_automatic sample 8 sample_app (sample_env "OPTIONS" "/post") sample_render
      sample_app (sample_request BALDE_HTTP_OPTIONS "/post") [] [] sample_post_view
      rfl rfl ⟨sample_calls, sample_app, rfl, rfl⟩ rfl (by decide) rfl
  have hview : view = sample_post_view :=
    hsame ⟨sample_app.priv.views.take 2, sample_app.priv.views.drop 3, rfl, by decide⟩
  subst hview
  exact ⟨by decide, rfl, hloop⟩

/-- C4, as the claim words it, fails where two routes share an endpoint
name. The sample program registers `e` for `POST /a` and `e` for `GET /b`. The
dispatcher resolves `/b` to the second entry, registered with `GET` in its
mask, and hands back its endpoint name `e`; the main loop looks the name up
again and finds the entry `/a`, whose mask has no `HEAD`: `HEAD /b` is
answered 405 and no view function is called. -/
theorem C4_counterexample :
    balde_views_registered sample sample_shared_app.priv.views ∧
    sample_shared_app.priv.views.find? (fun view => view.url_rule.rule == "/b") =
      some sample_shared_view ∧
    sample_shared_view ∈ sample_shared_app.priv.views ∧
    sample.balde_dispatch_from_path sample_shared_app.priv.views "/b" =
      (some sample_shared_view.url_rule.endpoint, []) ∧
    sample_shared_view.url_rule.method &&& BALDE_HTTP_GET ≠ 0 ∧
    balde_app_main_loop sample 8 sample_shared_app (sample_env "HEAD" "/b") sample_render =
      some
        { rv := "405; Content-Type: text/plain; ",
          status_code := 405,
          app := sample_shared_app,
          app_copy :=
            some
              { balde_app_copy sample_shared_app with
                error := some { domain := 1, code := 405, message := "aborted" } },
          calls :=
            [balde_call_t.dispatch sample_shared_app.priv.views "/b",
              balde_call_t.render
                { status_code := 405, headers := [("Content-Type", "text/plain")],
                  body := "aborted" }
                false] } :=
  ⟨⟨sample_shared_calls, sample_shared_app, rfl, rfl⟩, rfl, by decide, rfl, by decide, rfl⟩

/-- C4, amended: for an application without stored error whose route table,
as the dispatcher sees it, was built by registration, and a `HEAD` (or `GET`)
request whose path the dispatcher resolves to an entry of the table (it hands
back that entry's endpoint name) that has `GET` in its mask and that no entry
before it shares its endpoint name with, `balde_app_main_loop` calls that
entry's view function, the same for `HEAD` and `GET`, with the per-request
copy and the request, and then the renderer, for `HEAD` with
`with_body = false`; no 405 is recorded: the copy is as the view function left
it. -/
theorem C4_head_reaches_get_view (d : Collaborators) (fuel : Nat) (app : balde_app_t)
    (env : balde_request_env_t) (render : balde_response_t → Bool → String) (app1 : balde_app_t)
    (request : balde_request_t) (hook_calls : List balde_call_t)
    (view_args : List (String × String)) (view : balde_view_t)
    (before after : List balde_view_t)
    (herror : app.error = none)
    (hhooks : balde_app_run_before_requests d fuel 0 app
      (d.balde_make_request app env) = some (app1, request, hook_calls))
    (hregistered : balde_views_registered d app1.priv.views)
    (hmethod : request.method = BALDE_HTTP_HEAD ∨ request.method = BALDE_HTTP_GET)
    (hsplit : app1.priv.views = before ++ view :: after)
    (hbefore : ∀ other ∈ before, other.url_rule.endpoint ≠ view.url_rule.endpoint)
    (hfound : d.balde_dispatch_from_path app1.priv.views request.path =
      (some view.url_rule.endpoint, view_args))
    (hget : view.url_rule.method &&& BALDE_HTTP_GET ≠ 0) :
    balde_app_main_loop d fuel app env render =
      some
        { rv := render
            (balde_app_main_loop_response d
              (d.view view.view_func (balde_app_copy app1)
                { request with view_args := view_args }).1
              (d.view view.view_func (balde_app_copy app1)
                { request with view_args := view_args }).2)
            ((request.method &&& BALDE_HTTP_HEAD) == 0),
          status_code :=
            (balde_app_main_loop_response d
              (d.view view.view_func (balde_app_copy app1)
                { request with view_args := view_args }).1
              (d.view view.view_func (balde_app_copy app1)
                { request with view_args := view_args }).2).status_code,
          app :=
            { app1 with
              priv :=
                (d.view view.view_func (balde_app_copy app1)
                  { request with view_args := view_args }).2.priv },
          app_copy :=
            some (d.view view.view_func (balde_app_copy app1)
              { request with view_args := view_args }).2,
          calls := hook_calls ++
            [balde_call_t.dispatch app1.priv.views request.path,
              balde_call_t.view view.view_func (balde_app_copy app1)
                { request with view_args := view_args },
              balde_call_t.render
                (balde_app_main_loop_response d
                  (d.view view.view_func (balde_app_copy app1)
                    { request with view_args := view_args }).1
                  (d.view view.view_func (balde_app_copy app1)
                    { request with view_args := view_args }).2)
                ((request.method &&& BALDE_HTTP_HEAD) == 0)] } ∧
      (request.method = BALDE_HTTP_HEAD → ((request.method &&& BALDE_HTTP_HEAD) == 0) = false) ∧
      (request.method = BALDE_HTTP_GET → ((request.method &&& BALDE_HTTP_HEAD) == 0) = true) := by
  have hview : balde_app_get_view_from_endpoint (balde_app_copy app1) view.url_rule.endpoint =
      some view :=
    balde_app_get_view_from_endpoint_of_first (balde_app_copy app1) view before after hsplit
      hbefore
  have hmem : view ∈ app1.priv.views := balde_app_get_view_from_endpoint_mem _ _ _ hview
  obtain ⟨method, hmask⟩ := balde_views_registered_method d _ hregistered view hmem
  have hhead : view.url_rule.method &&& BALDE_HTTP_HEAD ≠ 0 := by
    rw [hmask] at hget ⊢
    exact balde_url_rule_method_head method hget
  have hallowed : request.method &&& view.url_rule.method ≠ 0 := by
    rcases hmethod with h | h
    · rw [h, Nat.land_comm]; exact hhead
    · rw [h, Nat.land_comm]; exact hget
  have hnot : request.method ≠ BALDE_HTTP_OPTIONS := by
    rcases hmethod with h | h <;> rw [h] <;> decide
  refine ⟨?_, ?_, ?_⟩
  · rw [balde_app_main_loop_eq d fuel app env render app1 request hook_calls
      (some view.url_rule.endpoint) view_args herror hhooks hfound]
    have hserved : balde_app_main_loop_view d (balde_app_copy app1)
        { request with view_args := view_args } (some view.url_rule.endpoint) =
        some (some (d.view view.view_func (balde_app_copy app1)
            { request with view_args := view_args }).1,
          (d.view view.view_func (balde_app_copy app1) { request with view_args := view_args }).2,
          [balde_call_t.view view.view_func (balde_app_copy app1)
            { request with view_args := view_args }]) := by
      unfold balde_app_main_loop_view
      simp only [hview]
      rw [if_pos hallowed, if_neg hnot]
    rw [hserved]
    generalize d.view view.view_func (balde_app_copy app1)
      { request with view_args := view_args } = served
    rcases served with ⟨response, ⟨priv, copy, error⟩⟩
    cases error <;> simp [balde_app_main_loop_response]
  · intro h; rw [h]; decide
  · intro h; rw [h]; decide

/-- C4, amended, at the sample program: `HEAD /` reaches the view function
registered for `GET /`, and the renderer is called without body. -/
theorem C4_head_reaches_get_view_witness :
    balde_app_main_loop sample 8 sample_app (sample_env "HEAD" "/") sample_render =
      some
        { rv := "200; ",
          status_code := 200,
          app := sample_app,
          app_copy := some (balde_app_copy sample_app),
          calls :=
            [balde_call_t.dispatch sample_app.priv.views "/",
              balde_call_t.view (balde_view_func_t.user 0) (balde_app_copy sample_app)
                (sample_request BALDE_HTTP_HEAD "/"),
              balde_call_t.render { status_code := 200, headers := [], body := "hello" } false] } :=
  (C4_head_reaches_get_view sample 8 sample_app (sample_env "HEAD" "/") sample_render sample_app
    (sample_request BALDE_HTTP_HEAD "/") [] []
    { url_rule :=
        { endpoint := "home", rule := "/", match_ := { pieces := ["/"], args := [] },
          method := 7 },
      view_func := balde_view_func_t.user 0 }
    sample_init.priv.views (sample_app.priv.views.drop 2)
    rfl rfl ⟨sample_calls, sample_app, rfl, rfl⟩ (Or.inl rfl) rfl (by decide) rfl
    (by decide)).1

/-- C5: for an application without stored error, when the dispatcher finds
no entry for the request path (it returns `NULL`), `balde_app_main_loop`
records on the per-request copy the error that `balde_abort_set_error` makes
for 404, returns the rendering of the error response built from that error,
reports status code 404, and calls, after the hooks, only the dispatcher and
the renderer: no view function. -/
theorem C5_no_match_is_404 (d : Collaborators) (fuel : Nat) (app : balde_app_t)
    (env : balde_request_env_t)
    (render : balde_response_t → Bool → String) (app1 : balde_app_t) (request : balde_request_t)
    (hook_calls : List balde_call_t) (view_args : List (String × String))
    (herror : app.error = none)
    (hhooks : balde_app_run_before_requests d fuel 0 app
      (d.balde_make_request app env) = some (app1, request, hook_calls))
    (hcontract : balde_abort_contract d)
    (hfound : d.balde_dispatch_from_path app1.priv.views request.path = (none, view_args)) :
    ∃ error,
      d.balde_abort_set_error (balde_app_copy app1) 404 =
        { balde_app_copy app1 with error := some error } ∧
      balde_app_main_loop d fuel app env render =
        some
          { rv := render (d.balde_make_response_from_exception error)
              ((request.method &&& BALDE_HTTP_HEAD) == 0),
            status_code := 404,
            app := app1,
            app_copy := some { balde_app_copy app1 with error := some error },
            calls := hook_calls ++
              [balde_call_t.dispatch app1.priv.views request.path,
                balde_call_t.render (d.balde_make_response_from_exception error)
                  ((request.method &&& BALDE_HTTP_HEAD) == 0)] } := by
  obtain ⟨error, hset, hstatus⟩ := hcontract (balde_app_copy app1) 404 rfl (Or.inl rfl)
  refine ⟨error, hset, ?_⟩
  rw [balde_app_main_loop_eq d fuel app env render app1 request hook_calls none view_args
    herror hhooks hfound]
  unfold balde_app_main_loop_view
  simp only [hset, hstatus]
  simp [balde_app_copy]

/-- The sample `exceptions.c` keeps the contract of `balde_abort_set_error`. -/
theorem sample_abort_contract : balde_abort_contract sample := by
  intro app code _ hcode
  refine ⟨{ domain := 1, code := code, message := "aborted" }, rfl, ?_⟩
  simp [sample, sample_make_response_from_exception]

/-- C5, at the sample program: `GET /nope` finds no route. -/
theorem C5_no_match_is_404_witness :
    ∃ error,
      sample.balde_abort_set_error (balde_app_copy sample_app) 404 =
        { balde_app_copy sample_app with error := some error } ∧
      balde_app_main_loop sample 8 sample_app (sample_env "GET" "/nope") sample_render =
        some
          { rv := sample_render (sample.balde_make_response_from_exception error) true,
            status_code := 404,
            app := sample_app,
            app_copy := some { balde_app_copy sample_app with error := some error },
            calls :=
              [balde_call_t.dispatch sample_app.priv.views "/nope",
                balde_call_t.render (sample.balde_make_response_from_exception error) true] } :=
  C5_no_match_is_404 sample 8 sample_app (sample_env "GET" "/nope") sample_render sample_app
    (sample_request BALDE_HTTP_GET "/nope") [] [] rfl rfl sample_abort_contract rfl

/-- C6: what the code does on the failing input. On the registered sample
application, `GET /post` (an entry whose mask is `POST | OPTIONS`) calls no
view function and gives status 405, and the response rendered has no `Allow`
header. Whatever `exceptions.c` and `balde_list_allowed_methods` do, the 405
path hands `balde_abort_set_error` the copy and the code 405 only, not the
mask: `GET /post` and `GET /put`, two entries with different masks, get the
same bytes, the same status and the same error on the copy. -/
theorem C6_allow_header_not_computed (d : Collaborators) (fuel : Nat)
    (render : balde_response_t → Bool → String) :
    balde_app_main_loop sample 8 sample_app (sample_env "GET" "/post") sample_render =
      some
        { rv := "405; Content-Type: text/plain; aborted",
          status_code := 405,
          app := sample_app,
          app_copy :=
            some
              { balde_app_copy sample_app with
                error := some { domain := 1, code := 405, message := "aborted" } },
          calls :=
            [balde_call_t.dispatch sample_app.priv.views "/post",
              balde_call_t.render
                { status_code := 405, headers := [("Content-Type", "text/plain")],
                  body := "aborted" }
                true] } ∧
    ∃ app post put,
      balde_app_register (with_sample_routing d) sample_calls = Except.ok app ∧
      balde_app_get_view_from_endpoint app "post" = some post ∧
      balde_app_get_view_from_endpoint app "put" = some put ∧
      post.url_rule.method = BALDE_HTTP_POST ||| BALDE_HTTP_OPTIONS ∧
      put.url_rule.method = BALDE_HTTP_PUT ||| BALDE_HTTP_OPTIONS ∧
      (with_sample_routing d).balde_dispatch_from_path app.priv.views "/post" = (some "post", []) ∧
      (with_sample_routing d).balde_dispatch_from_path app.priv.views "/put" = (some "put", []) ∧
      (balde_app_main_loop (with_sample_routing d) fuel app (sample_env "GET" "/post") render).map
          (fun out => (out.rv, out.status_code, out.app_copy)) =
        (balde_app_main_loop (with_sample_routing d) fuel app (sample_env "GET" "/put") render).map
          (fun out => (out.rv, out.status_code, out.app_copy)) := by
  refine ⟨rfl, sample_app, ?_⟩
  refine ⟨_, _, rfl, rfl, rfl, rfl, rfl, rfl, rfl, ?_⟩
  rw [balde_app_main_loop_eq (with_sample_routing d) fuel sample_app (sample_env "GET" "/post")
      render sample_app (sample_request BALDE_HTTP_GET "/post") [] (some "post") [] rfl
      (balde_app_run_before_requests_nil _ fuel 0 sample_app _ rfl) rfl,
    balde_app_main_loop_eq (with_sample_routing d) fuel sample_app (sample_env "GET" "/put")
      render sample_app (sample_request BALDE_HTTP_GET "/put") [] (some "put") [] rfl
      (balde_app_run_before_requests_nil _ fuel 0 sample_app _ rfl) rfl]
  have hpost : balde_app_main_loop_view (with_sample_routing d) (balde_app_copy sample_app)
      { sample_request BALDE_HTTP_GET "/post" with view_args := [] } (some "post") =
      some (none, d.balde_abort_set_error (balde_app_copy sample_app) 405, []) := rfl
  have hput : balde_app_main_loop_view (with_sample_routing d) (balde_app_copy sample_app)
      { sample_request BALDE_HTTP_GET "/put" with view_args := [] } (some "put") =
      some (none, d.balde_abort_set_error (balde_app_copy sample_app) 405, []) := rfl
  rw [hpost, hput]
  generalize d.balde_abort_set_error (balde_app_copy sample_app) 405 = app_copy
  rcases app_copy with ⟨priv, copy, error⟩
  cases error <;> rfl

theorem balde_app_add_url_rules_error (d : Collaborators) (calls : List balde_url_rule_call_t) :
    ∀ app app1 : balde_app_t, app.copy = false →
      (∀ error, app.error = some error → ∃ rule, d.balde_parse_url_rule rule = Except.error error) →
      balde_app_add_url_rules d app calls = Except.ok app1 →
      ∀ error, app1.error = some error →
        ∃ rule, d.balde_parse_url_rule rule = Except.error error := by
  induction calls with
  | nil =>
    intro app app1 _ hinv h
    simp only [balde_app_add_url_rules, Except.ok.injEq] at h
    subst h
    exact hinv
  | cons call calls ih =>
    intro app app1 hcopy hinv h
    unfold balde_app_add_url_rules at h
    rw [balde_app_add_url_rule_eq d app call hcopy] at h
    cases hparse : d.balde_parse_url_rule call.rule with
    | error tmp_error =>
      simp only [hparse] at h
      refine ih _ app1 ?_ ?_ h
      · exact hcopy
      intro error herror
      change g_propagate_error app.error tmp_error = some error at herror
      cases happ : app.error with
      | none =>
        rw [happ] at herror
        simp only [g_propagate_error, Option.some.injEq] at herror
        exact ⟨call.rule, by rw [hparse, herror]⟩
      | some error0 =>
        rw [happ] at herror
        simp only [g_propagate_error, Option.some.injEq] at herror
        exact hinv error (by rw [happ, herror])
    | ok compiled =>
      simp only [hparse] at h
      refine ih _ app1 ?_ ?_ h
      · exact hcopy
      · exact hinv

/-- C7: when the shared application carries a stored error, every call of
`balde_app_main_loop`, whatever the environment of the request, returns the
rendering (with body) of the error response built from the stored error and
reports that response's status code; the only call it makes is the call of
the renderer (no hook, no dispatch, no view function), and the application
is left as it was. The status is 500 when the stored error is the compile
error of a pattern, as it is in every application built by registration. -/
theorem C7_startup_error_short_circuits (d : Collaborators) (fuel : Nat) (app : balde_app_t)
    (env : balde_request_env_t) (render : balde_response_t → Bool → String) (error : GError)
    (herror : app.error = some error) (hcontract : balde_compile_error_contract d) :
    balde_app_main_loop d fuel app env render =
      some
        { rv := render (d.balde_make_response_from_exception error) true,
          status_code := (d.balde_make_response_from_exception error).status_code,
          app := app,
          app_copy := none,
          calls := [balde_call_t.render (d.balde_make_response_from_exception error) true] } ∧
    ((∃ rule, d.balde_parse_url_rule rule = Except.error error) →
      (d.balde_make_response_from_exception error).status_code = 500) ∧
    (∀ calls, balde_app_register d calls = Except.ok app →
      (d.balde_make_response_from_exception error).status_code = 500) := by
  refine ⟨?_, ?_, ?_⟩
  · unfold balde_app_main_loop
    rw [herror]
  · rintro ⟨rule, hrule⟩
    exact hcontract rule error hrule
  · intro calls hregister
    have hinit : balde_app_register d calls =
        balde_app_add_url_rules d
          { priv :=
              { views := [], before_requests := [], static_resources := [], user_data := none,
                user_data_destroy_func := none, config := [] },
            copy := false,
            error := none } (balde_static_call :: calls) := by
      unfold balde_app_register balde_app_init
      conv_rhs => unfold balde_app_add_url_rules
      rfl
    rw [hinit] at hregister
    obtain ⟨rule, hrule⟩ := balde_app_add_url_rules_error d (balde_static_call :: calls) _ app rfl
      (by intro error0 h; cases h) hregister error herror
    exact hcontract rule error hrule

/-- The sample translator turns the errors of the sample pattern compiler
into 500 responses. -/
theorem sample_compile_error_contract : balde_compile_error_contract sample := by
  intro rule error h
  have hdomain : error.domain = 2 := by
    simp only [sample, sample_parse_url_rule] at h
    split at h
    · cases h
    · cases h; rfl
  simp [sample, sample_make_response_from_exception, hdomain]

/-- C7, at the sample program: the sample application, with hooks, after the
malformed pattern `<path:` was registered; `GET /` gives the 500 response and
only the renderer is called. -/
theorem C7_startup_error_short_circuits_witness :
    balde_app_main_loop sample 8
        { sample_app_hooked with error := some { domain := 2, code := 1, message := "<path:" } }
        (sample_env "GET" "/") sample_render =
      some
        { rv := "500; Content-Type: text/plain; <path:",
          status_code := 500,
          app :=
            { sample_app_hooked with
              error := some { domain := 2, code := 1, message := "<path:" } },
          app_copy := none,
          calls :=
            [balde_call_t.render
              { status_code := 500, headers := [("Content-Type", "text/plain")],
                body := "<path:" }
              true] } :=
  (C7_startup_error_short_circuits sample 8
    { sample_app_hooked with error := some { domain := 2, code := 1, message := "<path:" } }
    (sample_env "GET" "/") sample_render { domain := 2, code := 1, message := "<path:" } rfl
    sample_compile_error_contract).1

/-- C9: for an application without stored error, when the view function that
`balde_app_main_loop` calls leaves an error on the per-request copy, the
main loop renders the error response built from that error, not the response
the view function returned, and reports the error response's status code. -/
theorem C9_handler_abort_rendered (d : Collaborators) (fuel : Nat) (app : balde_app_t)
    (env : balde_request_env_t) (render : balde_response_t → Bool → String) (app1 : balde_app_t)
    (request : balde_request_t) (hook_calls : List balde_call_t) (endpoint : String)
    (view_args : List (String × String)) (view : balde_view_t) (error : GError)
    (herror : app.error = none)
    (hhooks : balde_app_run_before_requests d fuel 0 app
      (d.balde_make_request app env) = some (app1, request, hook_calls))
    (hfound : d.balde_dispatch_from_path app1.priv.views request.path = (some endpoint, view_args))
    (hview : balde_app_get_view_from_endpoint (balde_app_copy app1) endpoint = some view)
    (hallowed : request.method &&& view.url_rule.method ≠ 0)
    (hmethod : request.method ≠ BALDE_HTTP_OPTIONS)
    (habort : (d.view view.view_func (balde_app_copy app1)
      { request with view_args := view_args }).2.error = some error) :
    balde_app_main_loop d fuel app env render =
      some
        { rv := render (d.balde_make_response_from_exception error)
            ((request.method &&& BALDE_HTTP_HEAD) == 0),
          status_code := (d.balde_make_response_from_exception error).status_code,
          app :=
            { app1 with
              priv :=
                (d.view view.view_func (balde_app_copy app1)
                  { request with view_args := view_args }).2.priv },
          app_copy :=
            some (d.view view.view_func (balde_app_copy app1)
              { request with view_args := view_args }).2,
          calls := hook_calls ++
            [balde_call_t.dispatch app1.priv.views request.path,
              balde_call_t.view view.view_func (balde_app_copy app1)
                { request with view_args := view_args },
              balde_call_t.render (d.balde_make_response_from_exception error)
                ((request.method &&& BALDE_HTTP_HEAD) == 0)] } := by
  rw [balde_app_main_loop_eq d fuel app env render app1 request hook_calls (some endpoint) view_args
    herror hhooks hfound]
  have hserved : balde_app_main_loop_view d (balde_app_copy app1)
      { request with view_args := view_args } (some endpoint) =
      some (some (d.view view.view_func (balde_app_copy app1)
          { request with view_args := view_args }).1,
        (d.view view.view_func (balde_app_copy app1) { request with view_args := view_args }).2,
        [balde_call_t.view view.view_func (balde_app_copy app1)
          { request with view_args := view_args }]) := by
    unfold balde_app_main_loop_view
    simp only [hview]
    rw [if_pos hallowed, if_neg hmethod]
  rw [hserved]
  simp only [habort]
  simp

/-- C9, at the sample program: the view function of `/deny` aborts with 403
and returns a response with body `unreachable`; the 403 response is what is
rendered. -/
theorem C9_handler_abort_rendered_witness :
    balde_app_main_loop sample 8 sample_app (sample_env "GET" "/deny") sample_render =
      some
        { rv := "403; Content-Type: text/plain; forbidden",
          status_code := 403,
          app := sample_app,
          app_copy :=
            some
              { balde_app_copy sample_app with
                error := some { domain := 1, code := 403, message := "forbidden" } },
          calls :=
            [balde_call_t.dispatch sample_app.priv.views "/deny",
              balde_call_t.view (balde_view_func_t.user 1) (balde_app_copy sample_app)
                (sample_request BALDE_HTTP_GET "/deny"),
              balde_call_t.render
                { status_code := 403, headers := [("Content-Type", "text/plain")],
                  body := "forbidden" }
                true] } :=
  C9_handler_abort_rendered sample 8 sample_app (sample_env "GET" "/deny") sample_render sample_app
    (sample_request BALDE_HTTP_GET "/deny") [] "deny" []
    { url_rule :=
        { endpoint := "deny", rule := "/deny", match_ := { pieces := ["/deny"], args := [] },
          method := 7 },
      view_func := balde_view_func_t.user 1 }
    { domain := 1, code := 403, message := "forbidden" } rfl rfl rfl rfl (by decide) (by decide)
    rfl

theorem balde_app_main_loop_view_total (d : Collaborators) (app_copy : balde_app_t)
    (request : balde_request_t) (found : Option String)
    (herror : app_copy.error = none)
    (habort : balde_abort_contract d)
    (hfind : ∀ endpoint, found = some endpoint →
      ∃ view, balde_app_get_view_from_endpoint app_copy endpoint = some view)
    (hviews : ∀ view_func app0 request0, (d.view view_func app0 request0).2.priv = app0.priv) :
    ∃ response app_copy1 calls,
      balde_app_main_loop_view d app_copy request found = some (response, app_copy1, calls) ∧
      app_copy1.priv = app_copy.priv ∧
      (app_copy1.error = none → ∃ answer, response = some answer) ∧
      (found = none → ∃ error, app_copy1.error = some error ∧
        (d.balde_make_response_from_exception error).status_code = 404) ∧
      (∀ endpoint view, found = some endpoint →
        balde_app_get_view_from_endpoint app_copy endpoint = some view →
        request.method &&& view.url_rule.method = 0 →
        ∃ error, app_copy1.error = some error ∧
          (d.balde_make_response_from_exception error).status_code = 405) ∧
      (∀ endpoint view, found = some endpoint →
        balde_app_get_view_from_endpoint app_copy endpoint = some view →
        request.method &&& view.url_rule.method ≠ 0 →
        request.method ≠ BALDE_HTTP_OPTIONS →
        app_copy1 = (d.view view.view_func app_copy request).2) := by
  cases found with
  | none =>
    obtain ⟨error, hset, hstatus⟩ := habort app_copy 404 herror (Or.inl rfl)
    refine ⟨none, _, [], rfl, ?_, ?_, ?_, ?_, ?_⟩
    · rw [hset]
    · intro h; rw [hset] at h; cases h
    · intro _; exact ⟨error, by rw [hset], hstatus⟩
    · intro endpoint view h; cases h
    · intro endpoint view h; cases h
  | some endpoint =>
    obtain ⟨view, hview⟩ := hfind endpoint rfl
    by_cases hallowed : request.method &&& view.url_rule.method ≠ 0
    · by_cases hmethod : request.method = BALDE_HTTP_OPTIONS
      · refine ⟨some (d.balde_response_set_header (d.balde_make_response "") "Allow"
            (d.balde_list_allowed_methods view.url_rule.method)), app_copy, [], ?_, rfl, ?_, ?_,
          ?_, ?_⟩
        · unfold balde_app_main_loop_view
          simp only [hview]
          rw [if_pos hallowed, if_pos hmethod]
        · intro _; exact ⟨_, rfl⟩
        · intro h; cases h
        · intro endpoint1 view1 h1 h2 h3
          cases h1
          rw [hview] at h2
          cases h2
          exact absurd h3 hallowed
        · intro endpoint1 view1 h1 h2 _ h4
          exact absurd hmethod h4
      · refine ⟨some (d.view view.view_func app_copy request).1,
          (d.view view.view_func app_copy request).2,
          [balde_call_t.view view.view_func app_copy request], ?_, hviews _ _ _, ?_, ?_, ?_, ?_⟩
        · unfold balde_app_main_loop_view
          simp only [hview]
          rw [if_pos hallowed, if_neg hmethod]
        · intro _; exact ⟨_, rfl⟩
        · intro h; cases h
        · intro endpoint1 view1 h1 h2 h3
          cases h1
          rw [hview] at h2
          cases h2
          exact absurd h3 hallowed
        · intro endpoint1 view1 h1 h2 _ _
          cases h1
          rw [hview] at h2
          cases h2
          rfl
    · obtain ⟨error, hset, hstatus⟩ := habort app_copy 405 herror (Or.inr rfl)
      refine ⟨none, d.balde_abort_set_error app_copy 405, [], ?_, ?_, ?_, ?_, ?_, ?_⟩
      · unfold balde_app_main_loop_view
        simp only [hview]
        rw [if_neg hallowed]
      · rw [hset]
      · intro h; rw [hset] at h; cases h
      · intro h; cases h
      · intro endpoint1 view1 _ _ _
        exact ⟨error, by rw [hset], hstatus⟩
      · intro endpoint1 view1 h1 h2 h3 _
        cases h1
        rw [hview] at h2
        cases h2
        exact absurd h3 hallowed

/-- C10, as stated, fails: the sample application has no stored error and its
hooks leave it unchanged, yet after `GET /free`, whose view function calls
`balde_app_free_user_data` on the per-request copy it is given, the shared
application is not what it was: its user data is gone. -/
theorem C10_counterexample :
    sample_app_hooked.error = none ∧
    (balde_app_run_before_requests sample 8 0 sample_app_hooked
      (sample.balde_make_request sample_app_hooked (sample_env "GET" "/free"))).map
        (fun hooked => hooked.1) = some sample_app_hooked ∧
    sample_app_hooked.priv.user_data = some 5 ∧
    ∃ out,
      balde_app_main_loop sample 8 sample_app_hooked (sample_env "GET" "/free") sample_render =
        some out ∧
      out.status_code = 200 ∧ out.app.priv.user_data = none ∧ out.app ≠ sample_app_hooked := by
  refine ⟨rfl, rfl, rfl, _, rfl, rfl, rfl, ?_⟩
  intro h
  have h2 := congrArg (fun app => app.priv.user_data) h
  revert h2
  decide

/-- C10, amended: for an application without stored error whose
before-request hooks leave it unchanged and whose view functions leave the
shared private part unchanged, `balde_app_main_loop` returns and leaves the
shared application unchanged, error slot still empty, whatever the outcome
of the request. The per-request copy starts with an empty error slot and the
private part of the application; a 404 (no entry found) and a 405 (method
not in the mask) are recorded in the error slot of the copy, and after a view
function the copy is as the view function left it. A later request on the
application afterwards gets what it gets on the application as it was. -/
theorem C10_shared_application_unchanged (d : Collaborators) (fuel : Nat) (app : balde_app_t)
    (env : balde_request_env_t) (render : balde_response_t → Bool → String)
    (request : balde_request_t) (hook_calls : List balde_call_t)
    (herror : app.error = none)
    (hhooks : balde_app_run_before_requests d fuel 0 app
      (d.balde_make_request app env) = some (app, request, hook_calls))
    (habort : balde_abort_contract d)
    (hdispatch : balde_dispatch_contract d)
    (hviews : ∀ view_func app0 request0, (d.view view_func app0 request0).2.priv = app0.priv) :
    balde_app_copy app = { priv := app.priv, copy := true, error := none } ∧
    ∃ out app_copy,
      balde_app_main_loop d fuel app env render = some out ∧
      out.app = app ∧ out.app.error = none ∧
      out.app_copy = some app_copy ∧ app_copy.priv = app.priv ∧
      ((d.balde_dispatch_from_path app.priv.views request.path).1 = none →
        out.status_code = 404 ∧ app_copy.error ≠ none) ∧
      (∀ endpoint view,
        (d.balde_dispatch_from_path app.priv.views request.path).1 = some endpoint →
        balde_app_get_view_from_endpoint (balde_app_copy app) endpoint = some view →
        request.method &&& view.url_rule.method = 0 →
        out.status_code = 405 ∧ app_copy.error ≠ none) ∧
      (∀ endpoint view,
        (d.balde_dispatch_from_path app.priv.views request.path).1 = some endpoint →
        balde_app_get_view_from_endpoint (balde_app_copy app) endpoint = some view →
        request.method &&& view.url_rule.method ≠ 0 →
        request.method ≠ BALDE_HTTP_OPTIONS →
        app_copy =
          (d.view view.view_func (balde_app_copy app)
            { request with
              view_args := (d.balde_dispatch_from_path app.priv.views request.path).2 }).2) ∧
      ∀ fuel2 env2,
        balde_app_main_loop d fuel2 out.app env2 render =
          balde_app_main_loop d fuel2 app env2 render := by
  refine ⟨rfl, ?_⟩
  have hfind : ∀ endpoint,
      (d.balde_dispatch_from_path app.priv.views request.path).1 = some endpoint →
      ∃ view, balde_app_get_view_from_endpoint (balde_app_copy app) endpoint = some view := by
    intro endpoint hfound
    obtain ⟨view, hmem, hendpoint⟩ := hdispatch _ _ _ hfound
    have hsome : (app.priv.views.find?
        (fun view => view.url_rule.endpoint == endpoint)).isSome = true :=
      List.find?_isSome.mpr ⟨view, hmem, by simp [hendpoint]⟩
    obtain ⟨view1, hview1⟩ := Option.isSome_iff_exists.mp hsome
    exact ⟨view1, hview1⟩
  obtain ⟨response, app_copy1, calls, hserved, hpriv, hanswer, h404, h405, hview⟩ :=
    balde_app_main_loop_view_total d (balde_app_copy app)
      { request with
        view_args := (d.balde_dispatch_from_path app.priv.views request.path).2 }
      (d.balde_dispatch_from_path app.priv.views request.path).1 rfl habort hfind hviews
  have hloop := balde_app_main_loop_eq d fuel app env render app request hook_calls
    (d.balde_dispatch_from_path app.priv.views request.path).1
    (d.balde_dispatch_from_path app.priv.views request.path).2 herror hhooks rfl
  rw [hserved] at hloop
  have hsame : ({ app with priv := app_copy1.priv } : balde_app_t) = app := by
    rw [hpriv]; rfl
  cases herr1 : app_copy1.error with
  | some error =>
    simp only [herr1] at hloop
    refine ⟨_, app_copy1, hloop, hsame, ?_, rfl, hpriv, ?_, ?_, ?_, ?_⟩
    · show ({ app with priv := app_copy1.priv } : balde_app_t).error = none
      exact herror
    · intro hnone
      obtain ⟨error1, he1, hstatus⟩ := h404 hnone
      rw [herr1] at he1
      cases he1
      exact ⟨hstatus, by rw [herr1]; exact Option.some_ne_none _⟩
    · intro endpoint view h1 h2 h3
      obtain ⟨error1, he1, hstatus⟩ := h405 endpoint view h1 h2 h3
      rw [herr1] at he1
      cases he1
      exact ⟨hstatus, by rw [herr1]; exact Option.some_ne_none _⟩
    · intro endpoint view h1 h2 h3 h4
      exact hview endpoint view h1 h2 h3 h4
    · intro fuel2 env2
      show balde_app_main_loop d fuel2 { app with priv := app_copy1.priv } env2 render = _
      rw [hsame]
  | none =>
    obtain ⟨answer, hresponse⟩ := hanswer herr1
    subst hresponse
    simp only [herr1] at hloop
    refine ⟨_, app_copy1, hloop, hsame, ?_, rfl, hpriv, ?_, ?_, ?_, ?_⟩
    · show ({ app with priv := app_copy1.priv } : balde_app_t).error = none
      exact herror
    · intro hnone
      obtain ⟨error1, he1, _⟩ := h404 hnone
      rw [herr1] at he1
      cases he1
    · intro endpoint view h1 h2 h3
      obtain ⟨error1, he1, _⟩ := h405 endpoint view h1 h2 h3
      rw [herr1] at he1
      cases he1
    · intro endpoint view h1 h2 h3 h4
      exact hview endpoint view h1 h2 h3 h4
    · intro fuel2 env2
      show balde_app_main_loop d fuel2 { app with priv := app_copy1.priv } env2 render = _
      rw [hsame]

/-- The sample dispatcher returns endpoints of entries of the table. -/
theorem sample_dispatch_contract : balde_dispatch_contract sample_quiet := by
  intro views path endpoint h
  change (views.find? (fun view => view.url_rule.rule == path)).map
    (fun view => view.url_rule.endpoint) = some endpoint at h
  cases hfind : views.find? (fun view => view.url_rule.rule == path) with
  | none => rw [hfind] at h; cases h
  | some view =>
    rw [hfind] at h
    simp only [Option.map_some', Option.some.injEq] at h
    exact ⟨view, List.mem_of_find?_eq_some hfind, h⟩

/-- The view functions of `sample_quiet` leave the private part alone. -/
theorem sample_quiet_views (view_func : balde_view_func_t) (app0 : balde_app_t)
    (request0 : balde_request_t) :
    (sample_quiet.view view_func app0 request0).2.priv = app0.priv := by
  rcases view_func with _ | address
  · rfl
  · match address with
    | 0 => rfl
    | 1 => rfl
    | 2 => rfl
    | n + 3 => rfl

/-- C10, amended, at the sample program with two hooks: `GET /post` is
answered 405 and the application is what it was. -/
theorem C10_shared_application_unchanged_witness :
    balde_app_copy sample_app_hooked =
      { priv := sample_app_hooked.priv, copy := true, error := none } ∧
    ∃ out app_copy,
      balde_app_main_loop sample_quiet 8 sample_app_hooked (sample_env "GET" "/post")
        sample_render = some out ∧
      out.app = sample_app_hooked ∧ out.app.error = none ∧
      out.app_copy = some app_copy ∧ app_copy.priv = sample_app_hooked.priv ∧
      ((sample_quiet.balde_dispatch_from_path sample_app_hooked.priv.views
          (sample_request BALDE_HTTP_GET "/post").path).1 = none →
        out.status_code = 404 ∧ app_copy.error ≠ none) ∧
      (∀ endpoint view,
        (sample_quiet.balde_dispatch_from_path sample_app_hooked.priv.views
          (sample_request BALDE_HTTP_GET "/post").path).1 = some endpoint →
        balde_app_get_view_from_endpoint (balde_app_copy sample_app_hooked) endpoint =
          some view →
        (sample_request BALDE_HTTP_GET "/post").method &&& view.url_rule.method = 0 →
        out.status_code = 405 ∧ app_copy.error ≠ none) ∧
      (∀ endpoint view,
        (sample_quiet.balde_dispatch_from_path sample_app_hooked.priv.views
          (sample_request BALDE_HTTP_GET "/post").path).1 = some endpoint →
        balde_app_get_view_from_endpoint (balde_app_copy sample_app_hooked) endpoint =
          some view →
        (sample_request BALDE_HTTP_GET "/post").method &&& view.url_rule.method ≠ 0 →
        (sample_request BALDE_HTTP_GET "/post").method ≠ BALDE_HTTP_OPTIONS →
        app_copy =
          (sample_quiet.view view.view_func (balde_app_copy sample_app_hooked)
            { sample_request BALDE_HTTP_GET "/post" with
              view_args :=
                (sample_quiet.balde_dispatch_from_path sample_app_hooked.priv.views
                  (sample_request BALDE_HTTP_GET "/post").path).2 }).2) ∧
      ∀ fuel2 env2,
        balde_app_main_loop sample_quiet fuel2 out.app env2 sample_render =
          balde_app_main_loop sample_quiet fuel2 sample_app_hooked env2 sample_render :=
  C10_shared_application_unchanged sample_quiet 8 sample_app_hooked (sample_env "GET" "/post")
    sample_render (sample_request BALDE_HTTP_GET "/post")
    [balde_call_t.before_request 0 sample_app_hooked (sample_request BALDE_HTTP_GET "/post"),
      balde_call_t.before_request 2 sample_app_hooked (sample_request BALDE_HTTP_GET "/post")]
    rfl rfl sample_abort_contract sample_dispatch_contract sample_quiet_views

/-! ## Per-request copies and registration: the claims -/

/-- C11: on a per-request copy made by `balde_app_copy`, each of the six
mutating registration operations is rejected before it writes anything: the
call ends with a `ReadOnlyViolation`, no destructor is called, and the private
part shared with the application (route list, hook list, config store, user
data slot, destructor) is after the call what it was before. -/
theorem C11_copy_rejects_registration (d : Collaborators) (g_utf8_strdown : String → String)
    (g_getenv : String → Option String) (app : balde_app_t) (endpoint rule name env_name : String)
    (method : Nat) (view_func : balde_view_func_t) (hook_func : balde_before_request_func_t)
    (value : Option String) (silent : Bool) (user_data destroy_func : Option Nat) :
    (balde_app_add_url_rule d (balde_app_copy app) endpoint rule method view_func =
        Except.error balde_failure_t.ReadOnlyViolation ∧
      (balde_app_after (balde_app_copy app)
        (balde_app_add_url_rule d (balde_app_copy app) endpoint rule method view_func)).priv =
        app.priv) ∧
    (balde_app_add_before_request (balde_app_copy app) hook_func =
        Except.error balde_failure_t.ReadOnlyViolation ∧
      (balde_app_after (balde_app_copy app)
        (balde_app_add_before_request (balde_app_copy app) hook_func)).priv = app.priv) ∧
    (balde_app_set_config g_utf8_strdown (balde_app_copy app) name value =
        Except.error balde_failure_t.ReadOnlyViolation ∧
      (balde_app_after (balde_app_copy app)
        (balde_app_set_config g_utf8_strdown (balde_app_copy app) name value)).priv =
        app.priv) ∧
    (balde_app_set_config_from_envvar d g_utf8_strdown g_getenv (balde_app_copy app) name
        env_name silent = Except.error balde_failure_t.ReadOnlyViolation ∧
      (balde_app_after (balde_app_copy app)
        (balde_app_set_config_from_envvar d g_utf8_strdown g_getenv (balde_app_copy app) name
          env_name silent)).priv = app.priv) ∧
    (balde_app_set_user_data (balde_app_copy app) user_data =
        Except.error balde_failure_t.ReadOnlyViolation ∧
      (balde_app_after (balde_app_copy app)
        ((balde_app_set_user_data (balde_app_copy app) user_data).map
          (fun result => result.1))).priv = app.priv) ∧
    (balde_app_set_user_data_destroy_func (balde_app_copy app) destroy_func =
        Except.error balde_failure_t.ReadOnlyViolation ∧
      (balde_app_after (balde_app_copy app)
        (balde_app_set_user_data_destroy_func (balde_app_copy app) destroy_func)).priv =
        app.priv) := by
  refine ⟨⟨rfl, rfl⟩, ⟨rfl, rfl⟩, ⟨rfl, rfl⟩, ⟨rfl, rfl⟩, ⟨rfl, rfl⟩, ⟨rfl, rfl⟩⟩

/-- C12: a mutating registration call on an application whose copy flag is
set ends with a `ReadOnlyViolation`, for each of the six operations; it never
returns normally. -/
theorem C12_copy_fails_loudly (d : Collaborators) (g_utf8_strdown : String → String)
    (g_getenv : String → Option String) (app : balde_app_t) (endpoint rule name env_name : String)
    (method : Nat) (view_func : balde_view_func_t) (hook_func : balde_before_request_func_t)
    (value : Option String) (silent : Bool) (user_data destroy_func : Option Nat)
    (hcopy : app.copy = true) :
    (balde_app_add_url_rule d app endpoint rule method view_func =
        Except.error balde_failure_t.ReadOnlyViolation ∧
      ∀ app1, balde_app_add_url_rule d app endpoint rule method view_func ≠ Except.ok app1) ∧
    (balde_app_set_config g_utf8_strdown app name value =
        Except.error balde_failure_t.ReadOnlyViolation ∧
      ∀ app1, balde_app_set_config g_utf8_strdown app name value ≠ Except.ok app1) ∧
    (balde_app_add_before_request app hook_func =
        Except.error balde_failure_t.ReadOnlyViolation ∧
      ∀ app1, balde_app_add_before_request app hook_func ≠ Except.ok app1) ∧
    (balde_app_set_config_from_envvar d g_utf8_strdown g_getenv app name env_name silent =
        Except.error balde_failure_t.ReadOnlyViolation ∧
      ∀ app1, balde_app_set_config_from_envvar d g_utf8_strdown g_getenv app name env_name
        silent ≠ Except.ok app1) ∧
    (balde_app_set_user_data app user_data = Except.error balde_failure_t.ReadOnlyViolation ∧
      ∀ result, balde_app_set_user_data app user_data ≠ Except.ok result) ∧
    (balde_app_set_user_data_destroy_func app destroy_func =
        Except.error balde_failure_t.ReadOnlyViolation ∧
      ∀ app1, balde_app_set_user_data_destroy_func app destroy_func ≠ Except.ok app1) := by
  have hadd : balde_app_add_url_rule d app endpoint rule method view_func =
      Except.error balde_failure_t.ReadOnlyViolation := by
    simp [balde_app_add_url_rule, BALDE_APP_READ_ONLY, hcopy]
  have hconfig : balde_app_set_config g_utf8_strdown app name value =
      Except.error balde_failure_t.ReadOnlyViolation := by
    simp [balde_app_set_config, BALDE_APP_READ_ONLY, hcopy]
  have hhook : balde_app_add_before_request app hook_func =
      Except.error balde_failure_t.ReadOnlyViolation := by
    simp [balde_app_add_before_request, BALDE_APP_READ_ONLY, hcopy]
  have henv : balde_app_set_config_from_envvar d g_utf8_strdown g_getenv app name env_name
      silent = Except.error balde_failure_t.ReadOnlyViolation := by
    simp [balde_app_set_config_from_envvar, BALDE_APP_READ_ONLY, hcopy]
  have hdata : balde_app_set_user_data app user_data =
      Except.error balde_failure_t.ReadOnlyViolation := by
    simp [balde_app_set_user_data, BALDE_APP_READ_ONLY, hcopy]
  have hdestroy : balde_app_set_user_data_destroy_func app destroy_func =
      Except.error balde_failure_t.ReadOnlyViolation := by
    simp [balde_app_set_user_data_destroy_func, BALDE_APP_READ_ONLY, hcopy]
  refine ⟨⟨hadd, ?_⟩, ⟨hconfig, ?_⟩, ⟨hhook, ?_⟩, ⟨henv, ?_⟩, ⟨hdata, ?_⟩, ⟨hdestroy, ?_⟩⟩
  · intro app1 h; rw [hadd] at h; cases h
  · intro app1 h; rw [hconfig] at h; cases h
  · intro app1 h; rw [hhook] at h; cases h
  · intro app1 h; rw [henv] at h; cases h
  · intro result h; rw [hdata] at h; cases h
  · intro app1 h; rw [hdestroy] at h; cases h

/-- C12, at the sample program: registration calls on the per-request copy of
the sample application. -/
theorem C12_copy_fails_loudly_witness :
    balde_app_add_url_rule sample (balde_app_copy sample_app) "late" "/late" BALDE_HTTP_GET
        (balde_view_func_t.user 0) = Except.error balde_failure_t.ReadOnlyViolation ∧
      balde_app_set_config sample_strdown (balde_app_copy sample_app) "Foo" (some "1") =
        Except.error balde_failure_t.ReadOnlyViolation :=
  ⟨(C12_copy_fails_loudly sample sample_strdown sample_getenv (balde_app_copy sample_app)
      "late" "/late" "Foo" "BALDE_SECRET" BALDE_HTTP_GET (balde_view_func_t.user 0) 0
      (some "1") false none none rfl).1.1,
    (C12_copy_fails_loudly sample sample_strdown sample_getenv (balde_app_copy sample_app)
      "late" "/late" "Foo" "BALDE_SECRET" BALDE_HTTP_GET (balde_view_func_t.user 0) 0
      (some "1") false none none rfl).2.1.1⟩

/-! ## Config store: lemmas and claims -/

theorem g_hash_table_lookup_replace (table : List (String × Option String)) (key : String)
    (value : Option String) :
    g_hash_table_lookup (g_hash_table_replace table key value) key = value := by
  simp [g_hash_table_lookup, g_hash_table_replace]

theorem g_hash_table_lookup_replace_other (table : List (String × Option String))
    (key other : String) (value : Option String) (hne : key ≠ other) :
    g_hash_table_lookup (g_hash_table_replace table key value) other =
      g_hash_table_lookup table other := by
  have hfilter : ∀ entries : List (String × Option String),
      (entries.filter (fun entry => entry.1 != key)).find? (fun entry => entry.1 == other) =
        entries.find? (fun entry => entry.1 == other) := by
    intro entries
    induction entries with
    | nil => rfl
    | cons entry entries ih =>
      rw [List.filter_cons]
      by_cases hkey : (entry.1 != key) = true
      · rw [if_pos hkey, List.find?_cons, List.find?_cons, ih]
      · rw [if_neg hkey, List.find?_cons, ih]
        have hentry : entry.1 = key := by simpa using hkey
        have hskip : (entry.1 == other) = false := by simp [hentry, hne]
        simp only [hskip]
  unfold g_hash_table_lookup g_hash_table_replace
  rw [List.find?_cons]
  have hhead : ((key, value).1 == other) = false := by simp [hne]
  rw [hhead, hfilter]

theorem balde_app_set_config_eq (g_utf8_strdown : String → String) (app : balde_app_t)
    (name : String) (value : Option String) (hcopy : app.copy = false) :
    balde_app_set_config g_utf8_strdown app name value =
      Except.ok
        { app with
          priv :=
            { app.priv with
              config := g_hash_table_replace app.priv.config (g_utf8_strdown name) value } } := by
  simp [balde_app_set_config, BALDE_APP_READ_ONLY, hcopy]

/-- C13: on an application that is not a copy, for every value and every two
key names with the same lower-cased form, `balde_app_get_config` with the
second name after `balde_app_set_config` with the first name and the value
returns the value; a later `balde_app_set_config` under a third name with
that lower-cased form replaces the value read. -/
theorem C13_config_case_insensitive (g_utf8_strdown : String → String) (app : balde_app_t)
    (name1 name2 name3 : String) (value value3 : Option String)
    (hcopy : app.copy = false)
    (hsame : g_utf8_strdown name1 = g_utf8_strdown name2)
    (hlater : g_utf8_strdown name3 = g_utf8_strdown name1) :
    ∃ app1 app3,
      balde_app_set_config g_utf8_strdown app name1 value = Except.ok app1 ∧
      balde_app_get_config g_utf8_strdown app1 name2 = value ∧
      balde_app_set_config g_utf8_strdown app1 name3 value3 = Except.ok app3 ∧
      balde_app_get_config g_utf8_strdown app3 name2 = value3 := by
  refine ⟨_, _, balde_app_set_config_eq g_utf8_strdown app name1 value hcopy, ?_,
    balde_app_set_config_eq g_utf8_strdown _ name3 value3 hcopy, ?_⟩
  · show g_hash_table_lookup (g_hash_table_replace app.priv.config (g_utf8_strdown name1) value)
      (g_utf8_strdown name2) = value
    rw [← hsame]
    exact g_hash_table_lookup_replace _ _ _
  · show g_hash_table_lookup (g_hash_table_replace _ (g_utf8_strdown name3) value3)
      (g_utf8_strdown name2) = value3
    rw [← hsame, ← hlater]
    exact g_hash_table_lookup_replace _ _ _

/-- C13, at the sample program: set `Foo` to `1`, then get `foo` gives `1`;
after `FOO` is set to `2`, get `foo` gives `2`. -/
theorem C13_config_case_insensitive_witness :
    ∃ app1 app3,
      balde_app_set_config sample_strdown sample_app "Foo" (some "1") = Except.ok app1 ∧
      balde_app_get_config sample_strdown app1 "foo" = some "1" ∧
      balde_app_set_config sample_strdown app1 "FOO" (some "2") = Except.ok app3 ∧
      balde_app_get_config sample_strdown app3 "foo" = some "2" :=
  C13_config_case_insensitive sample_strdown sample_app "Foo" "foo" "FOO" (some "1") (some "2")
    rfl (by decide) (by decide)

theorem balde_app_set_configs_lookup (g_utf8_strdown : String → String) (name : String)
    (settings : List (String × Option String)) :
    ∀ app : balde_app_t, app.copy = false →
      (∀ setting ∈ settings, g_utf8_strdown setting.1 ≠ g_utf8_strdown name) →
      ∃ app1, balde_app_set_configs g_utf8_strdown app settings = Except.ok app1 ∧
        app1.copy = false ∧
        balde_app_get_config g_utf8_strdown app1 name =
          balde_app_get_config g_utf8_strdown app name := by
  induction settings with
  | nil => intro app hcopy _; exact ⟨app, rfl, hcopy, rfl⟩
  | cons setting settings ih =>
    intro app hcopy hother
    unfold balde_app_set_configs
    rw [balde_app_set_config_eq g_utf8_strdown app setting.1 setting.2 hcopy]
    obtain ⟨app1, h1, h2, h3⟩ := ih
      { app with
        priv :=
          { app.priv with
            config :=
              g_hash_table_replace app.priv.config (g_utf8_strdown setting.1) setting.2 } }
      hcopy (fun other hmem => hother other (List.mem_cons_of_mem _ hmem))
    refine ⟨app1, h1, h2, ?_⟩
    rw [h3]
    exact g_hash_table_lookup_replace_other _ _ _ _ (hother setting (List.mem_cons_self _ _))

theorem balde_app_init_config (d : Collaborators) :
    ∃ app, balde_app_init d = Except.ok app ∧ app.copy = false ∧ app.priv.config = [] ∧
      app.priv.before_requests = [] := by
  have h := balde_app_add_url_rule_eq d
    { priv :=
        { views := [], before_requests := [], static_resources := [], user_data := none,
          user_data_destroy_func := none, config := [] },
      copy := false,
      error := none } balde_static_call rfl
  change balde_app_init d = _ at h
  cases hparse : d.balde_parse_url_rule balde_static_call.rule <;> rw [hparse] at h <;>
    exact ⟨_, h, rfl, rfl, rfl⟩

/-- C14: `balde_app_init` returns an application for which
`balde_app_get_config` returns `NULL` (`none`, not the empty string) for every
key, and still does, after any sequence of `balde_app_set_config` calls, for
every key whose lower-cased form is not the lower-cased form of a key that
was set; on every application that is not a copy, setting one key leaves the
value read for a key with another lower-cased form as it was. -/
theorem C14_unset_config_is_null (d : Collaborators) (g_utf8_strdown : String → String)
    (name : String) :
    (∃ app, balde_app_init d = Except.ok app ∧
      balde_app_get_config g_utf8_strdown app name = none ∧
      balde_app_get_config g_utf8_strdown app name ≠ some "" ∧
      ∀ settings : List (String × Option String),
        (∀ setting ∈ settings, g_utf8_strdown setting.1 ≠ g_utf8_strdown name) →
        ∃ app1, balde_app_set_configs g_utf8_strdown app settings = Except.ok app1 ∧
          balde_app_get_config g_utf8_strdown app1 name = none) ∧
    ∀ (app0 : balde_app_t) (other : String) (value : Option String), app0.copy = false →
      g_utf8_strdown other ≠ g_utf8_strdown name →
      ∃ app1, balde_app_set_config g_utf8_strdown app0 other value = Except.ok app1 ∧
        balde_app_get_config g_utf8_strdown app1 name =
          balde_app_get_config g_utf8_strdown app0 name := by
  constructor
  · obtain ⟨app, hinit, hcopy, hconfig, _⟩ := balde_app_init_config d
    have hnone : balde_app_get_config g_utf8_strdown app name = none := by
      simp [balde_app_get_config, g_hash_table_lookup, hconfig]
    refine ⟨app, hinit, hnone, by rw [hnone]; simp, ?_⟩
    intro settings hother
    obtain ⟨app1, h1, _, h3⟩ :=
      balde_app_set_configs_lookup g_utf8_strdown name settings app hcopy hother
    exact ⟨app1, h1, by rw [h3, hnone]⟩
  · intro app0 other value hcopy hne
    refine ⟨_, balde_app_set_config_eq g_utf8_strdown app0 other value hcopy, ?_⟩
    exact g_hash_table_lookup_replace_other _ _ _ _ hne

/-! ## Lookup by endpoint: the claims -/

/-- C15: `balde_app_get_view_from_endpoint` returns at most one entry. An
entry it returns has the endpoint name asked for and no entry before it in the
route table has that name: it is the first one, in registration order. It
returns no entry exactly when no entry has the name, and an entry whenever
some entry has it. -/
theorem C15_first_entry_with_endpoint (app : balde_app_t) (endpoint : String) :
    (∀ view, balde_app_get_view_from_endpoint app endpoint = some view →
      view.url_rule.endpoint = endpoint ∧
      ∃ before after, app.priv.views = before ++ view :: after ∧
        ∀ other ∈ before, other.url_rule.endpoint ≠ endpoint) ∧
    (balde_app_get_view_from_endpoint app endpoint = none ↔
      ∀ view ∈ app.priv.views, view.url_rule.endpoint ≠ endpoint) ∧
    ((∃ view ∈ app.priv.views, view.url_rule.endpoint = endpoint) →
      ∃ view, balde_app_get_view_from_endpoint app endpoint = some view) := by
  refine ⟨?_, ?_, ?_⟩
  · intro view hview
    unfold balde_app_get_view_from_endpoint at hview
    rw [List.find?_eq_some] at hview
    obtain ⟨hname, before, after, hsplit, hbefore⟩ := hview
    refine ⟨by simpa using hname, before, after, hsplit, ?_⟩
    intro other hmem
    simpa using hbefore other hmem
  · unfold balde_app_get_view_from_endpoint
    rw [List.find?_eq_none]
    simp
  · rintro ⟨view, hmem, hname⟩
    have hsome : (app.priv.views.find?
        (fun view => view.url_rule.endpoint == endpoint)).isSome = true :=
      List.find?_isSome.mpr ⟨view, hmem, by simp [hname]⟩
    exact Option.isSome_iff_exists.mp hsome

theorem balde_views_find_of_nodup (views : List balde_view_t) (view : balde_view_t)
    (hmem : view ∈ views)
    (hnodup : (views.map (fun entry => entry.url_rule.endpoint)).Nodup) :
    views.find? (fun entry => entry.url_rule.endpoint == view.url_rule.endpoint) = some view := by
  induction views with
  | nil => cases hmem
  | cons head tail ih =>
    rw [List.map_cons, List.nodup_cons] at hnodup
    rw [List.find?_cons]
    rcases List.mem_cons.mp hmem with hhead | htail
    · subst hhead
      simp
    · have hne : head.url_rule.endpoint ≠ view.url_rule.endpoint := by
        intro h
        apply hnodup.1
        rw [h]
        exact List.mem_map_of_mem (fun entry => entry.url_rule.endpoint) htail
      have hskip : (head.url_rule.endpoint == view.url_rule.endpoint) = false := by simp [hne]
      simp only [hskip]
      exact ih htail hnodup.2

theorem balde_view_of_call_endpoints (d : Collaborators) (calls : List balde_url_rule_call_t)
    (hvalid : ∀ call ∈ calls, ∃ compiled, d.balde_parse_url_rule call.rule = Except.ok compiled) :
    (calls.filterMap (balde_view_of_call d)).map (fun entry => entry.url_rule.endpoint) =
      calls.map (fun call => call.endpoint) := by
  induction calls with
  | nil => rfl
  | cons call calls ih =>
    obtain ⟨compiled, hcompiled⟩ := hvalid call (List.mem_cons_self _ _)
    have hview : balde_view_of_call d call =
        some
          { url_rule :=
              { endpoint := call.endpoint, rule := call.rule, match_ := compiled,
                method := balde_url_rule_method call.method },
            view_func := call.view_func } := by
      simp [balde_view_of_call, hcompiled]
    rw [List.filterMap_cons, hview]
    simp only [List.map_cons]
    rw [ih (fun other hmem => hvalid other (List.mem_cons_of_mem _ hmem))]

/-- C16, as stated, fails: one call, with a valid pattern, under the name
`static`, on a newly initialised application. The route table then holds two
entries, not one, and looking up `static` returns the built-in static route,
not the entry that was registered under that name. -/
theorem C16_counterexample :
    sample.balde_parse_url_rule "/other" =
      Except.ok { pieces := ["/other"], args := [] } ∧
    ∃ app,
      balde_app_register sample
        [{ endpoint := "static", rule := "/other", method := BALDE_HTTP_GET,
           view_func := balde_view_func_t.user 0 }] = Except.ok app ∧
      app.priv.views.length = 2 ∧
      balde_app_get_view_from_endpoint app "static" =
        some
          { url_rule :=
              { endpoint := "static", rule := "/static/<path:file>",
                match_ := { pieces := ["/static/<path:file>"], args := [] }, method := 7 },
            view_func := balde_view_func_t.balde_resource_view } := by
  refine ⟨rfl, _, rfl, rfl, rfl⟩

/-- C16, amended: after `n` calls of `balde_app_add_url_rule`, made one after
another with valid patterns and pairwise distinct endpoint names on a newly
initialised application, the route table holds the built-in static route
(when its pattern compiled) followed by exactly the `n` entries of the calls,
in order, none lost or duplicated; and looking up a registered endpoint other
than `static` returns the entry (pattern, stored mask and handler) that was
registered under that name. -/
theorem C16_no_entry_lost (d : Collaborators) (calls : List balde_url_rule_call_t)
    (hvalid : ∀ call ∈ calls, ∃ compiled, d.balde_parse_url_rule call.rule = Except.ok compiled)
    (hdistinct : (calls.map (fun call => call.endpoint)).Nodup) :
    ∃ app, balde_app_register d calls = Except.ok app ∧
      app.priv.views =
        (balde_view_of_call d balde_static_call).toList ++
          calls.filterMap (balde_view_of_call d) ∧
      (calls.filterMap (balde_view_of_call d)).length = calls.length ∧
      ((balde_view_of_call d balde_static_call).toList).length ≤ 1 ∧
      ∀ call ∈ calls, call.endpoint ≠ "static" →
        ∃ compiled, d.balde_parse_url_rule call.rule = Except.ok compiled ∧
          balde_app_get_view_from_endpoint app call.endpoint =
            some
              { url_rule :=
                  { endpoint := call.endpoint, rule := call.rule, match_ := compiled,
                    method := balde_url_rule_method call.method },
                view_func := call.view_func } := by
  obtain ⟨app, happ, _, hviews⟩ := balde_app_register_views d calls
  have hendpoints := balde_view_of_call_endpoints d calls hvalid
  have hsplit : app.priv.views =
      (balde_view_of_call d balde_static_call).toList ++
        calls.filterMap (balde_view_of_call d) := by
    rw [hviews, List.filterMap_cons]
    cases balde_view_of_call d balde_static_call <;> rfl
  refine ⟨app, happ, hsplit, ?_, ?_, ?_⟩
  · have h := congrArg List.length hendpoints
    simpa using h
  · cases balde_view_of_call d balde_static_call <;> simp
  · intro call hmem hname
    obtain ⟨compiled, hcompiled⟩ := hvalid call hmem
    refine ⟨compiled, hcompiled, ?_⟩
    have hview : balde_view_of_call d call =
        some
          { url_rule :=
              { endpoint := call.endpoint, rule := call.rule, match_ := compiled,
                method := balde_url_rule_method call.method },
            view_func := call.view_func } := by
      simp [balde_view_of_call, hcompiled]
    have hentry :
        ({ url_rule :=
            { endpoint := call.endpoint, rule := call.rule, match_ := compiled,
              method := balde_url_rule_method call.method },
           view_func := call.view_func } : balde_view_t) ∈
          calls.filterMap (balde_view_of_call d) :=
      List.mem_filterMap.mpr ⟨call, hmem, hview⟩
    have hfound := balde_views_find_of_nodup (calls.filterMap (balde_view_of_call d)) _ hentry
      (by rw [hendpoints]; exact hdistinct)
    have hstatic : (balde_view_of_call d balde_static_call).toList.find?
        (fun entry => entry.url_rule.endpoint == call.endpoint) = none := by
      rw [List.find?_eq_none]
      intro entry hentry1
      have hsome : balde_view_of_call d balde_static_call = some entry := by
        cases hcall : balde_view_of_call d balde_static_call with
        | none => rw [hcall] at hentry1; cases hentry1
        | some entry1 =>
          rw [hcall] at hentry1
          simp only [Option.toList_some, List.mem_singleton] at hentry1
          rw [hentry1]
      have hstaticname := (balde_view_of_call_method d balde_static_call entry hsome).2.1
      simp only [beq_iff_eq]
      rw [hstaticname]
      exact fun h => hname h.symm
    unfold balde_app_get_view_from_endpoint
    rw [hsplit, List.find?_append, hstatic]
    exact hfound

/-- C16, amended, at the sample program: the five routes of the sample
program. -/
theorem C16_no_entry_lost_witness :
    ∃ app, balde_app_register sample sample_calls = Except.ok app ∧
      app.priv.views =
        (balde_view_of_call sample balde_static_call).toList ++
          sample_calls.filterMap (balde_view_of_call sample) ∧
      (sample_calls.filterMap (balde_view_of_call sample)).length = sample_calls.length ∧
      ((balde_view_of_call sample balde_static_call).toList).length ≤ 1 ∧
      ∀ call ∈ sample_calls, call.endpoint ≠ "static" →
        ∃ compiled, sample.balde_parse_url_rule call.rule = Except.ok compiled ∧
          balde_app_get_view_from_endpoint app call.endpoint =
            some
              { url_rule :=
                  { endpoint := call.endpoint, rule := call.rule, match_ := compiled,
                    method := balde_url_rule_method call.method },
                view_func := call.view_func } :=
  C16_no_entry_lost sample sample_calls
    (by
      intro call hmem
      simp only [sample_calls, List.mem_cons, List.mem_singleton, List.not_mem_nil,
        or_false] at hmem
      rcases hmem with h | h | h | h | h <;> subst h <;> exact ⟨_, rfl⟩)
    (by decide)

/-! ## Reverse URLs: lemmas and the claim -/

theorem esc_append (a b : String) : esc (a ++ b) = esc a ++ esc b := by
  apply String.ext
  simp [esc, g_uri_escape_string, List.flatMap_append]

theorem balde_app_url_forv_pieces_esc (pieces : List String) :
    ∀ params : List String, pieces.length ≤ params.length + 1 →
      ∃ appended, balde_app_url_forv_pieces pieces params = some appended ∧
        esc appended = url_for_spec_path (pieces.map esc) params := by
  induction pieces with
  | nil => intro params _; exact ⟨"", rfl, rfl⟩
  | cons piece rest ih =>
    intro params hlength
    cases rest with
    | nil => exact ⟨piece, rfl, rfl⟩
    | cons next pieces =>
      cases params with
      | nil => simp at hlength
      | cons param params =>
        have hrest : (next :: pieces).length ≤ params.length + 1 := by
          simp only [List.length_cons] at hlength ⊢
          omega
        obtain ⟨tail, htail, hesc⟩ := ih params hrest
        refine ⟨piece ++ param ++ tail, ?_, ?_⟩
        · simp only [balde_app_url_forv_pieces, htail]
        · rw [esc_append, esc_append, hesc]
          rfl

/-- C17, as stated, fails: with the script root `/my app`, the reverse URL of
the route with pieces `/user/` and `/` for the argument `bob smith` is
`/my%20app/user/bob%20smith/`: the script root is escaped too, where the
claim has `/my app/user/bob%20smith/`. -/
theorem C17_counterexample :
    (balde_app_get_view_from_endpoint sample_url_app "user").map
        (fun view => view.url_rule.match_.pieces) = some ["/user/", "/"] ∧
    balde_app_url_for sample_url_app
        { sample_request BALDE_HTTP_GET "/" with script_name := some "/my app" } "user" false
        ["bob smith"] = some (some "/my%20app/user/bob%20smith/") ∧
    url_for_spec "/my app" ["/user/", "/"] ["bob smith"] = "/my app/user/bob%20smith/" ∧
    balde_app_url_for sample_url_app
        { sample_request BALDE_HTTP_GET "/" with script_name := some "/my app" } "user" false
        ["bob smith"] ≠ some (some (url_for_spec "/my app" ["/user/", "/"] ["bob smith"])) := by
  refine ⟨rfl, rfl, rfl, ?_⟩
  decide

/-- C17, amended: for a registered endpoint whose compiled matcher has the
literal pieces `p0..pn` and for at least `n` argument values,
`balde_app_url_for` returns `esc(scriptRoot ++ p0 ++ a0 ++ p1 ++ ... ++ pn)`,
that is `esc(scriptRoot) ++ esc(p0) ++ esc(a0) ++ esc(p1) ++ ... ++ esc(pn)`:
the whole URL is percent-escaped, `/` and `:` left alone, the script root
(empty when absent) and the literal pieces included, and one argument is
consumed for each capture slot, in pattern order. When the script root and
the pieces hold only characters that `esc` leaves alone, this is
`scriptRoot ++ p0 ++ esc(a0) ++ p1 ++ ... ++ esc(a(n-1)) ++ pn`. -/
theorem C17_url_for_escapes_whole_url (app : balde_app_t) (request : balde_request_t)
    (endpoint : String) (external : Bool) (params : List String) (view : balde_view_t)
    (hview : balde_app_get_view_from_endpoint app endpoint = some view)
    (hparams : view.url_rule.match_.pieces.length ≤ params.length + 1) :
    balde_app_url_for app request endpoint external params =
      some (some (url_for_spec (esc (request.script_name.getD ""))
        (view.url_rule.match_.pieces.map esc) params)) ∧
    (esc (request.script_name.getD "") = request.script_name.getD "" →
      view.url_rule.match_.pieces.map esc = view.url_rule.match_.pieces →
      balde_app_url_for app request endpoint external params =
        some (some (url_for_spec (request.script_name.getD "")
          view.url_rule.match_.pieces params))) := by
  obtain ⟨appended, happended, hesc⟩ :=
    balde_app_url_forv_pieces_esc view.url_rule.match_.pieces params hparams
  have hcode : balde_app_url_for app request endpoint external params =
      some (some (url_for_spec (esc (request.script_name.getD ""))
        (view.url_rule.match_.pieces.map esc) params)) := by
    unfold balde_app_url_for balde_app_url_forv url_for_spec
    simp only [hview, happended]
    rw [← hesc, ← esc_append]
    cases request.script_name <;> rfl
  refine ⟨hcode, ?_⟩
  intro hroot hpieces
  rw [hcode, hroot, hpieces]

/-- C17, amended, at the sample program: script root `/app`, argument
`bob smith`. -/
theorem C17_url_for_escapes_whole_url_witness :
    balde_app_url_for sample_url_app
        { sample_request BALDE_HTTP_GET "/" with script_name := some "/app" } "user" false
        ["bob smith"] = some (some "/app/user/bob%20smith/") :=
  (C17_url_for_escapes_whole_url sample_url_app
    { sample_request BALDE_HTTP_GET "/" with script_name := some "/app" } "user" false
    ["bob smith"]
    { url_rule :=
        { endpoint := "user", rule := "/user/<name>/",
          match_ := { pieces := ["/user/", "/"], args := ["name"] }, method := 7 },
      view_func := balde_view_func_t.user 0 }
    rfl (by decide)).1

/-! ## Before-request hooks and user data: lemmas and claims -/

/-- C19: on an application that is not a copy, `balde_app_set_user_data`
returns, and `balde_app_get_user_data` then returns the value that was set.
When the application held a destructor and non-null user data, the
destructor is called once, on the old value, before the new value is stored;
when it held no destructor or no user data, no destructor is called. Nothing
but the user data slot changes. -/
theorem C19_set_user_data_destroys_old (app : balde_app_t) (user_data : Option Nat)
    (hcopy : app.copy = false) :
    ∃ app1 steps,
      balde_app_set_user_data app user_data = Except.ok (app1, steps) ∧
      balde_app_get_user_data app1 = user_data ∧
      app1 = { app with priv := { app.priv with user_data := user_data } } ∧
      (∀ destroy_func old, app.priv.user_data_destroy_func = some destroy_func →
        app.priv.user_data = some old →
        steps =
          [balde_user_data_step_t.destroy destroy_func old, balde_user_data_step_t.store none,
            balde_user_data_step_t.store user_data]) ∧
      (app.priv.user_data_destroy_func = none ∨ app.priv.user_data = none →
        steps = [balde_user_data_step_t.store user_data]) := by
  obtain ⟨⟨views, before_requests, static_resources, old_data, old_destroy, config⟩, copy,
    error⟩ := app
  simp only at hcopy
  subst hcopy
  cases old_destroy with
  | none =>
    refine ⟨_, _, rfl, rfl, rfl, ?_, ?_⟩
    · intro destroy_func old h; cases h
    · intro _; rfl
  | some destroy_func =>
    cases old_data with
    | none =>
      refine ⟨_, _, rfl, rfl, rfl, ?_, ?_⟩
      · intro destroy_func1 old _ h; cases h
      · intro _; rfl
    | some old =>
      refine ⟨_, _, rfl, rfl, rfl, ?_, ?_⟩
      · intro destroy_func1 old1 h1 h2
        cases h1
        cases h2
        rfl
      · intro h
        rcases h with h | h <;> cases h

/-- C19, at the sample program: the sample application holds the user data 5
and the destructor 9; setting the user data to 7 calls the destructor on 5. -/
theorem C19_set_user_data_destroys_old_witness :
    ∃ app1 steps,
      balde_app_set_user_data sample_app_hooked (some 7) = Except.ok (app1, steps) ∧
      balde_app_get_user_data app1 = some 7 ∧
      app1 =
        { sample_app_hooked with
          priv := { sample_app_hooked.priv with user_data := some 7 } } ∧
      (∀ destroy_func old, sample_app_hooked.priv.user_data_destroy_func = some destroy_func →
        sample_app_hooked.priv.user_data = some old →
        steps =
          [balde_user_data_step_t.destroy destroy_func old, balde_user_data_step_t.store none,
            balde_user_data_step_t.store (some 7)]) ∧
      (sample_app_hooked.priv.user_data_destroy_func = none ∨
          sample_app_hooked.priv.user_data = none →
        steps = [balde_user_data_step_t.store (some 7)]) :=
  C19_set_user_data_destroys_old sample_app_hooked (some 7) rfl

/-! ## Locks: the claim -/

/-- C20: what the code does on the failing input. `balde_app_set_config`
makes its write of the config store between `G_LOCK(config)` and
`G_UNLOCK(config)`, and `balde_app_add_url_rule` its write of the route table
between `G_LOCK(views)` and `G_UNLOCK(views)`; `balde_app_get_config` makes
its read of the config store and takes no lock: the read is made with no lock
held. -/
theorem C20_get_config_takes_no_lock (d : Collaborators) (app : balde_app_t) (rule : String) :
    balde_steps_locked (balde_app_set_config_steps app) [] = true ∧
    balde_steps_locked (balde_app_add_url_rule_steps d app rule) [] = true ∧
    (app.copy = false →
      balde_app_set_config_steps app =
        [balde_step_t.lock balde_lock_t.config, balde_step_t.write balde_lock_t.config,
          balde_step_t.unlock balde_lock_t.config]) ∧
    balde_app_get_config_steps app = [balde_step_t.read balde_lock_t.config] ∧
    (∀ name, balde_step_t.lock name ∉ balde_app_get_config_steps app) ∧
    balde_steps_locked (balde_app_get_config_steps app) [] = false := by
  refine ⟨?_, ?_, ?_, rfl, ?_, rfl⟩
  · unfold balde_app_set_config_steps BALDE_APP_READ_ONLY
    cases app.copy <;> rfl
  · unfold balde_app_add_url_rule_steps BALDE_APP_READ_ONLY
    cases app.copy
    · cases d.balde_parse_url_rule rule <;> rfl
    · rfl
  · intro hcopy
    unfold balde_app_set_config_steps BALDE_APP_READ_ONLY
    rw [hcopy]
    rfl
  · intro name hmem
    simp [balde_app_get_config_steps] at hmem

/-! ## The renderer call: lemmas and claims -/

theorem balde_app_main_loop_view_cases (d : Collaborators) (app_copy : balde_app_t)
    (request : balde_request_t) (found : Option String)
    (herror : app_copy.error = none)
    (habort : balde_abort_contract d)
    (hfind : ∀ endpoint, found = some endpoint →
      ∃ view, balde_app_get_view_from_endpoint app_copy endpoint = some view) :
    ∃ response app_copy1 calls,
      balde_app_main_loop_view d app_copy request found = some (response, app_copy1, calls) ∧
      (∀ call ∈ calls, ∃ view_func app0 request0,
        call = balde_call_t.view view_func app0 request0) ∧
      (app_copy1.error = none →
        ∃ answer, response = some answer ∧
          ((∃ view : balde_view_t, answer =
              d.balde_response_set_header (d.balde_make_response "") "Allow"
                (d.balde_list_allowed_methods view.url_rule.method)) ∨
            ∃ view_func app0 request0,
              balde_call_t.view view_func app0 request0 ∈ calls ∧
              answer = (d.view view_func app0 request0).1)) := by
  cases found with
  | none =>
    obtain ⟨error, hset, _⟩ := habort app_copy 404 herror (Or.inl rfl)
    refine ⟨none, _, [], rfl, ?_, ?_⟩
    · intro call h; cases h
    · intro h; rw [hset] at h; cases h
  | some endpoint =>
    obtain ⟨view, hview⟩ := hfind endpoint rfl
    by_cases hallowed : request.method &&& view.url_rule.method ≠ 0
    · by_cases hmethod : request.method = BALDE_HTTP_OPTIONS
      · refine ⟨some (d.balde_response_set_header (d.balde_make_response "") "Allow"
            (d.balde_list_allowed_methods view.url_rule.method)), app_copy, [], ?_, ?_, ?_⟩
        · unfold balde_app_main_loop_view
          simp only [hview]
          rw [if_pos hallowed, if_pos hmethod]
        · intro call h; cases h
        · intro _; exact ⟨_, rfl, Or.inl ⟨view, rfl⟩⟩
      · refine ⟨some (d.view view.view_func app_copy request).1,
          (d.view view.view_func app_copy request).2,
          [balde_call_t.view view.view_func app_copy request], ?_, ?_, ?_⟩
        · unfold balde_app_main_loop_view
          simp only [hview]
          rw [if_pos hallowed, if_neg hmethod]
        · intro call h
          rw [List.mem_singleton] at h
          exact ⟨_, _, _, h⟩
        · intro _
          exact ⟨_, rfl, Or.inr ⟨_, _, _, List.mem_singleton.mpr rfl, rfl⟩⟩
    · obtain ⟨error, hset, _⟩ := habort app_copy 405 herror (Or.inr rfl)
      refine ⟨none, d.balde_abort_set_error app_copy 405, [], ?_, ?_, ?_⟩
      · unfold balde_app_main_loop_view
        simp only [hview]
        rw [if_neg hallowed]
      · intro call h; cases h
      · intro h; rw [hset] at h; cases h

theorem balde_app_main_loop_rendered (d : Collaborators) (fuel : Nat) (app : balde_app_t)
    (env : balde_request_env_t) (render : balde_response_t → Bool → String) (app1 : balde_app_t)
    (request : balde_request_t) (hook_calls : List balde_call_t)
    (herror : app.error = none)
    (hhooks : balde_app_run_before_requests d fuel 0 app
      (d.balde_make_request app env) = some (app1, request, hook_calls))
    (habort : balde_abort_contract d) (hdispatch : balde_dispatch_contract d) :
    ∃ app_copy1 view_calls response,
      balde_app_main_loop d fuel app env render =
        some
          { rv := render response ((request.method &&& BALDE_HTTP_HEAD) == 0),
            status_code := response.status_code,
            app := { app1 with priv := app_copy1.priv },
            app_copy := some app_copy1,
            calls := hook_calls ++ [balde_call_t.dispatch app1.priv.views request.path] ++
              view_calls ++
              [balde_call_t.render response ((request.method &&& BALDE_HTTP_HEAD) == 0)] } ∧
      (∀ call ∈ view_calls, ∃ view_func app0 request0,
        call = balde_call_t.view view_func app0 request0) ∧
      (∀ error, app_copy1.error = some error →
        response = d.balde_make_response_from_exception error) ∧
      (app_copy1.error = none →
        (∃ view : balde_view_t, response =
            d.balde_response_set_header (d.balde_make_response "") "Allow"
              (d.balde_list_allowed_methods view.url_rule.method)) ∨
          ∃ view_func app0 request0,
            balde_call_t.view view_func app0 request0 ∈ view_calls ∧
            response = (d.view view_func app0 request0).1) := by
  have hfind : ∀ endpoint,
      (d.balde_dispatch_from_path app1.priv.views request.path).1 = some endpoint →
      ∃ view, balde_app_get_view_from_endpoint (balde_app_copy app1) endpoint = some view := by
    intro endpoint hfound
    obtain ⟨view, hmem, hendpoint⟩ := hdispatch _ _ _ hfound
    have hsome : (app1.priv.views.find?
        (fun view => view.url_rule.endpoint == endpoint)).isSome = true :=
      List.find?_isSome.mpr ⟨view, hmem, by simp [hendpoint]⟩
    exact Option.isSome_iff_exists.mp hsome
  obtain ⟨served, app_copy1, view_calls, hserved, hcalls, hanswer⟩ :=
    balde_app_main_loop_view_cases d (balde_app_copy app1)
      { request with
        view_args := (d.balde_dispatch_from_path app1.priv.views request.path).2 }
      (d.balde_dispatch_from_path app1.priv.views request.path).1 rfl habort hfind
  have hloop := balde_app_main_loop_eq d fuel app env render app1 request hook_calls
    (d.balde_dispatch_from_path app1.priv.views request.path).1
    (d.balde_dispatch_from_path app1.priv.views request.path).2 herror hhooks rfl
  rw [hserved] at hloop
  cases herr1 : app_copy1.error with
  | some error =>
    simp only [herr1] at hloop
    refine ⟨app_copy1, view_calls, d.balde_make_response_from_exception error, hloop, hcalls,
      ?_, ?_⟩
    · intro error1 h
      rw [herr1] at h
      cases h
      rfl
    · intro h; rw [herr1] at h; cases h
  | none =>
    obtain ⟨answer, hresponse, hkind⟩ := hanswer herr1
    subst hresponse
    simp only [herr1] at hloop
    refine ⟨app_copy1, view_calls, answer, hloop, hcalls, ?_, ?_⟩
    · intro error1 h; rw [herr1] at h; cases h
    · intro _; exact hkind

/-- Where the application carries no stored error and the loop over the
hooks comes to its end, `balde_app_main_loop` calls the renderer once, last,
with the flag computed from the method of the request (`app.c`, line 551):
`with_body = false` when the method is `HEAD`, on every path (view response,
automatic `OPTIONS` answer, 404, 405, handler abort), and `with_body = true`
when the method is one of the other methods. -/
theorem balde_app_main_loop_with_body (d : Collaborators) (fuel : Nat) (app : balde_app_t)
    (env : balde_request_env_t) (render : balde_response_t → Bool → String) (app1 : balde_app_t)
    (request : balde_request_t) (hook_calls : List balde_call_t)
    (herror : app.error = none)
    (hhooks : balde_app_run_before_requests d fuel 0 app
      (d.balde_make_request app env) = some (app1, request, hook_calls))
    (habort : balde_abort_contract d) (hdispatch : balde_dispatch_contract d) :
    ∃ out before response,
      balde_app_main_loop d fuel app env render = some out ∧
      out.calls = before ++
        [balde_call_t.render response ((request.method &&& BALDE_HTTP_HEAD) == 0)] ∧
      (∀ call ∈ before, ∀ response1 with_body,
        call ≠ balde_call_t.render response1 with_body) ∧
      (request.method = BALDE_HTTP_HEAD →
        ((request.method &&& BALDE_HTTP_HEAD) == 0) = false) ∧
      (request.method ∈
          [BALDE_HTTP_NONE, BALDE_HTTP_OPTIONS, BALDE_HTTP_GET, BALDE_HTTP_POST,
            BALDE_HTTP_PUT, BALDE_HTTP_PATCH, BALDE_HTTP_DELETE] →
        ((request.method &&& BALDE_HTTP_HEAD) == 0) = true) := by
  obtain ⟨app_copy1, view_calls, response, hloop, hcalls, _, _⟩ :=
    balde_app_main_loop_rendered d fuel app env render app1 request hook_calls herror hhooks
      habort hdispatch
  refine ⟨_, hook_calls ++ [balde_call_t.dispatch app1.priv.views request.path] ++ view_calls,
    response, hloop, rfl, ?_, ?_, ?_⟩
  · intro call hmem response1 with_body hcall
    have hhook := balde_app_run_before_requests_calls d fuel 0 app
      (d.balde_make_request app env) _ hhooks
    rcases List.mem_append.mp hmem with h | h
    · rcases List.mem_append.mp h with h | h
      · obtain ⟨_, _, _, h1⟩ := hhook call h
        rw [h1] at hcall
        cases hcall
      · rw [List.mem_singleton] at h
        rw [h] at hcall
        cases hcall
    · obtain ⟨_, _, _, h1⟩ := hcalls call h
      rw [h1] at hcall
      cases hcall
  · intro h; rw [h]; decide
  · intro h
    simp only [List.mem_cons, List.mem_singleton, List.not_mem_nil, or_false] at h
    rcases h with h | h | h | h | h | h | h <;> rw [h] <;> decide

/-- C21: what the code does on the failing input. When the application
carries a stored error, `balde_app_main_loop` makes one call, of the renderer,
with `with_body = true`, whatever the method of the request, `HEAD` included:
the flag handed over at line 535 is still the `TRUE` it was initialised with
at line 529, the method is read into it only at line 551, after the return of
line 539. The error path of lines 584-591 hands over the computed flag. -/
theorem C21_stored_error_renders_with_body (d : Collaborators) (fuel : Nat) (app : balde_app_t)
    (env : balde_request_env_t) (render : balde_response_t → Bool → String) (error : GError)
    (herror : app.error = some error) :
    balde_app_main_loop d fuel app env render =
      some
        { rv := render (d.balde_make_response_from_exception error) true,
          status_code := (d.balde_make_response_from_exception error).status_code,
          app := app,
          app_copy := none,
          calls := [balde_call_t.render (d.balde_make_response_from_exception error) true] } := by
  unfold balde_app_main_loop
  rw [herror]

/-- C21, on the failing input: on the sample application carrying the
compile error of `<path:`, `HEAD /` makes `balde_app_main_loop` call the
renderer with `with_body = true`, and the bytes returned end with the body;
on the same application without the stored error, `HEAD /nope` (a 404, the
other error path) is rendered with `with_body = false`, without body. -/
theorem C21_stored_error_renders_with_body_witness :
    sample_str2method (sample_env "HEAD" "/").request_method = BALDE_HTTP_HEAD ∧
    balde_app_main_loop sample 8
        { sample_app_hooked with error := some { domain := 2, code := 1, message := "<path:" } }
        (sample_env "HEAD" "/") sample_render =
      some
        { rv := "500; Content-Type: text/plain; <path:",
          status_code := 500,
          app :=
            { sample_app_hooked with
              error := some { domain := 2, code := 1, message := "<path:" } },
          app_copy := none,
          calls :=
            [balde_call_t.render
              { status_code := 500, headers := [("Content-Type", "text/plain")],
                body := "<path:" }
              true] } ∧
    balde_app_main_loop sample_quiet 8 sample_app_hooked (sample_env "HEAD" "/nope")
        sample_render =
      some
        { rv := "404; Content-Type: text/plain; ",
          status_code := 404,
          app := sample_app_hooked,
          app_copy :=
            some
              { balde_app_copy sample_app_hooked with
                error := some { domain := 1, code := 404, message := "aborted" } },
          calls :=
            [balde_call_t.before_request 0 sample_app_hooked
                (sample_request BALDE_HTTP_HEAD "/nope"),
              balde_call_t.before_request 2 sample_app_hooked
                (sample_request BALDE_HTTP_HEAD "/nope"),
              balde_call_t.dispatch sample_app_hooked.priv.views "/nope",
              balde_call_t.render
                { status_code := 404, headers := [("Content-Type", "text/plain")],
                  body := "aborted" }
                false] } :=
  ⟨rfl,
    C21_stored_error_renders_with_body sample 8
      { sample_app_hooked with error := some { domain := 2, code := 1, message := "<path:" } }
      (sample_env "HEAD" "/") sample_render { domain := 2, code := 1, message := "<path:" } rfl,
    rfl⟩

theorem balde_template_escape_percent_append (a b : String) :
    balde_template_escape_percent (a ++ b) =
      balde_template_escape_percent a ++ balde_template_escape_percent b := by
  apply String.ext
  simp [balde_template_escape_percent, List.flatMap_append]

theorem balde_template_blocks_contents (contents : List String) :
    ∀ state : balde_template_state_t,
      balde_template_blocks state
          (contents.map balde_template_block_t.BALDE_TEMPLATE_CONTENT_BLOCK) =
        { state with
          parsed := state.parsed ++
            balde_template_escape_percent (balde_template_contents contents) } := by
  induction contents with
  | nil =>
    intro state
    show state = { state with parsed := state.parsed ++ "" }
    rw [String.append_empty]
  | cons content contents ih =>
    intro state
    simp only [List.map_cons, balde_template_blocks, balde_template_block, ih,
      balde_template_contents, balde_template_escape_percent_append, String.append_assoc]

set_option maxRecDepth 100000 in
/-- C23: what the code does. For a template made of content blocks only,
`balde_template_generate_source` returns a C source whose format string is
the `g_strescape` of the content with every percent sign doubled, and whose
function passes that format string to `g_strdup`, which copies it as it is:
the doubled percent signs reach the response body. For the template `100%`
the format string is `100%%`. -/
theorem C23_literal_template_source (template_name : String) (contents : List String) :
    balde_template_generate_source_blocks template_name
        (contents.map balde_template_block_t.BALDE_TEMPLATE_CONTENT_BLOCK) =
      "// WARNING: this file was generated automatically by balde-template-gen\n" ++
        "\n" ++
        "#include <balde.h>\n" ++
        "#include <glib.h>\n" ++
        "\n" ++
        "static const gchar *balde_template_" ++ template_name ++ "_format = \"" ++
        g_strescape (balde_template_escape_percent (balde_template_contents contents)) "" ++
        "\";\n" ++
        "extern void balde_template_" ++ template_name ++
        "(balde_app_t *app, balde_request_t *request, " ++
        "balde_response_t *response);\n" ++
        "\n" ++
        "void\n" ++
        "balde_template_" ++ template_name ++
        "(balde_app_t *app, balde_request_t *request, balde_response_t *response)\n" ++
        "\x7b\n" ++
        "    gchar *rv = g_strdup(balde_template_" ++ template_name ++ "_format);\n" ++
        "    balde_response_append_body(response, rv);\n" ++
        "    g_free(rv);\n" ++
        "\x7d\n" ∧
    g_strescape (balde_template_escape_percent (balde_template_contents ["100%"])) "" =
      "100%%" ∧
    balde_template_generate_source
        (fun _ => [balde_template_block_t.BALDE_TEMPLATE_CONTENT_BLOCK "100%"]) "t" "100%" =
      "// WARNING: this file was generated automatically by balde-template-gen\n\n#include <balde.h>\n#include <glib.h>\n\nstatic const gchar *balde_template_t_format = \"100%%\";\nextern void balde_template_t(balde_app_t *app, balde_request_t *request, balde_response_t *response);\n\nvoid\nbalde_template_t(balde_app_t *app, balde_request_t *request, balde_response_t *response)\n\x7b\n    gchar *rv = g_strdup(balde_template_t_format);\n    balde_response_append_body(response, rv);\n    g_free(rv);\n\x7d\n" := by
  refine ⟨?_, by decide, by decide⟩
  unfold balde_template_generate_source_blocks
  rw [balde_template_blocks_contents]
  simp only [String.empty_append, String.append_empty, List.isEmpty_nil, eq_self_iff_true,
    if_true, balde_template_printf_args, String.append_assoc]

theorem g_path_get_basename_ne_nil (file_name : List UInt8) :
    g_path_get_basename file_name ≠ [] := by
  unfold g_path_get_basename
  split
  · simp
  · split
    · simp
    · rename_i hslashes
      have hstripped : file_name.rdropWhile (fun c => c == 47) ≠ [] := by
        intro h
        rw [h] at hslashes
        exact hslashes rfl
      intro hnil
      rw [List.rtakeWhile_eq_nil_iff] at hnil
      have hlast := List.rdropWhile_last_not (fun c : UInt8 => c == 47) file_name hstripped
      have hnot := hnil hstripped
      simp only [bne_iff_ne, ne_eq, Decidable.not_not] at hnot
      exact hlast (by simp [hnot])

theorem balde_template_get_name_cut_ne_nil (template_name : List UInt8)
    (hname : template_name ≠ []) :
    ∀ i, balde_template_get_name_cut template_name i ≠ [] := by
  intro i
  induction i with
  | zero => exact hname
  | succ i ih =>
    unfold balde_template_get_name_cut
    split
    · intro h
      rw [List.take_eq_nil_iff] at h
      rcases h with h | h
      · cases h
      · exact hname h
    · exact ih

theorem balde_template_get_name_cut_plain (template_name : List UInt8)
    (hplain : ∀ c ∈ template_name, c ≠ 46) :
    ∀ i, balde_template_get_name_cut template_name i = template_name := by
  intro i
  induction i with
  | zero => rfl
  | succ i ih =>
    unfold balde_template_get_name_cut
    split
    · rename_i hdot
      exact absurd rfl (hplain 46 (List.getElem?_mem hdot))
    · exact ih

theorem g_path_get_basename_plain (file_name : List UInt8) (hname : file_name ≠ [])
    (hplain : ∀ c ∈ file_name, c ≠ 47) :
    g_path_get_basename file_name = file_name := by
  have hstrip : file_name.rdropWhile (fun c => c == 47) = file_name := by
    rw [List.rdropWhile_eq_self_iff]
    intro hl
    have hmem := List.getLast_mem hl
    simpa using hplain _ hmem
  have htake : file_name.rtakeWhile (fun c => c != 47) = file_name := by
    rw [List.rtakeWhile_eq_self_iff]
    intro c hmem
    simpa using hplain c hmem
  unfold g_path_get_basename
  rw [hstrip, htake]
  cases file_name with
  | nil => exact absurd rfl hname
  | cons c rest => rfl

/-- C24: for every file name (a byte string), `balde_template_get_name`
returns a non-empty string made only of ASCII letters and underscores, and
`balde_template_get_name` applied to that result returns it unchanged. -/
theorem C24_template_name_is_identifier (template_basename : List UInt8) :
    balde_template_get_name template_basename ≠ [] ∧
    (∀ c ∈ balde_template_get_name template_basename, g_ascii_isalpha c = true ∨ c = 95) ∧
    balde_template_get_name (balde_template_get_name template_basename) =
      balde_template_get_name template_basename := by
  have hne : balde_template_get_name template_basename ≠ [] := by
    unfold balde_template_get_name
    intro h
    rw [List.map_eq_nil_iff] at h
    exact balde_template_get_name_cut_ne_nil _ (g_path_get_basename_ne_nil template_basename) _ h
  have hchars : ∀ c ∈ balde_template_get_name template_basename,
      g_ascii_isalpha c = true ∨ c = 95 := by
    intro c hmem
    unfold balde_template_get_name at hmem
    rw [List.mem_map] at hmem
    obtain ⟨byte, _, hbyte⟩ := hmem
    by_cases halpha : g_ascii_isalpha byte = true
    · rw [if_pos halpha] at hbyte
      exact Or.inl (hbyte ▸ halpha)
    · rw [if_neg halpha] at hbyte
      exact Or.inr hbyte.symm
  have hslash : ∀ c ∈ balde_template_get_name template_basename, c ≠ 47 := by
    intro c hmem hc
    subst hc
    rcases hchars _ hmem with h | h
    · revert h; decide
    · revert h; decide
  have hdot : ∀ c ∈ balde_template_get_name template_basename, c ≠ 46 := by
    intro c hmem hc
    subst hc
    rcases hchars _ hmem with h | h
    · revert h; decide
    · revert h; decide
  refine ⟨hne, hchars, ?_⟩
  generalize hresult : balde_template_get_name template_basename = result at hne hchars hslash hdot
  unfold balde_template_get_name
  simp only []
  rw [g_path_get_basename_plain result hne hslash, balde_template_get_name_cut_plain result hdot]
  have hfixed : ∀ c ∈ result, (if g_ascii_isalpha c = true then c else 95) = c := by
    intro c hmem
    rcases hchars c hmem with h | h
    · rw [if_pos h]
    · subst h
      rfl
  rw [List.map_congr_left hfixed, List.map_id']

end Balde
